/- Verification of the Android SDK bootstrapper (src/sdk-installer.ts of
android-emulator-runner): a shallow embedding of `installAndroidSdk`,
`installBaseSdk` and `acceptLicenses` over an explicit state (a filesystem
modelled as the list of existing paths, plus the process environment) and an
explicit trace of external effects (commands executed, files written,
environment variables exported). -/
import Mathlib

namespace SdkInstaller

/-! ## JavaScript string semantics -/

/-- Truthiness of an optional environment-variable or parameter string, as
JavaScript coerces it: `undefined` and the empty string are falsy. -/
def truthy : Option String → Bool
  | none => false
  | some s => !(s == "")

/-- Template-literal interpolation of a possibly-undefined string:
`undefined` prints as the text "undefined". -/
def jsStr : Option String → String
  | none => "undefined"
  | some s => s

/-- The JavaScript idiom `v || ''`. -/
def jsOr : Option String → String
  | none => ""
  | some s => s

/-- Split a character list at every occurrence of `sep`, keeping empty
groups, as JavaScript's `String.prototype.split` does with a one-character
separator. -/
def splitOnChar (sep : Char) : List Char → List (List Char)
  | [] => [[]]
  | c :: cs =>
    let r := splitOnChar sep cs
    if c == sep then [] :: r
    else
      match r with
      | [] => [[c]]
      | g :: gs => (c :: g) :: gs

/-- JavaScript `s.split(sep)` for a one-character separator. -/
def jsSplit (s : String) (sep : Char) : List String :=
  (splitOnChar sep s.data).map String.mk

/-- JavaScript `Array.prototype.join(sep)`. -/
def joinSep (sep : String) : List String → String
  | [] => ""
  | [x] => x
  | x :: y :: xs => x ++ sep ++ joinSep sep (y :: xs)

/-- Whether `p` occurs as a contiguous run somewhere in the second list. -/
def hasInfixChars (p : List Char) : List Char → Bool
  | [] => p.isEmpty
  | c :: cs => List.isPrefixOf p (c :: cs) || hasInfixChars p cs

/-- JavaScript `s.includes(sub)`: substring containment. -/
def jsIncludes (s sub : String) : Bool :=
  hasInfixChars sub.data s.data

/-! ## Filesystem and environment model -/

/-- The directory that contains `p`: everything before the last slash. -/
def parentDir (p : String) : String :=
  joinSep "/" (((splitOnChar '/' p.data).dropLast).map String.mk)

/-- Existence check on the modelled filesystem (Node's `fs.existsSync`). -/
def existsSync (fs : List String) (p : String) : Bool :=
  fs.contains p

/-- Record that path `p` now exists. -/
def addFsPath (fs : List String) (p : String) : List String :=
  if fs.contains p then fs else p :: fs

/-- Whether path `q` is `p` itself or lies underneath directory `p`. -/
def isPathOrUnder (q p : String) : Bool :=
  q == p || List.isPrefixOf (p ++ "/").data q.data

/-- Remove path `p` and everything underneath it (a recursive delete or the
source side of a `mv`). -/
def removeFsTree (fs : List String) (p : String) : List String :=
  fs.filter (fun q => !(isPathOrUnder q p))

/-- The process environment as the bootstrapper reads and mutates it. -/
structure Env where
  /-- `process.platform` -/
  platform : String
  /-- `process.env.ANDROID_HOME` -/
  androidHome : Option String
  /-- `core.getInput('fresh-sdk-installation')`; `getInput` yields the empty
  string for an absent input. -/
  freshSdkInstallation : String
  /-- `process.env.PATH` -/
  pathVar : Option String
  /-- `process.env.ANDROID_SDK_HOME` -/
  androidSdkHome : Option String
  /-- `Date.now()` at the moment the backup suffix is computed -/
  now : Nat
  deriving Repr, DecidableEq

/-- Mutable world state: the filesystem and the environment. -/
structure St where
  fs : List String
  env : Env
  deriving Repr, DecidableEq

/-- One observable side effect of the bootstrapper. -/
inductive Effect where
  | log (msg : String)
  | setFailed (msg : String)
  | execCmd (cmd : String)
  | mkdirP (p : String)
  | rmRF (p : String)
  | writeFileSync (p content : String)
  | addPath (p : String)
  | exportVariable (name value : String)
  deriving Repr, DecidableEq

/-- How a run of `installAndroidSdk` ends: normal resolution, an early
return after `core.setFailed`, or an uncaught exception thrown while
writing the named path. -/
inductive Outcome where
  | ok
  | failed
  | exn (p : String)
  deriving Repr, DecidableEq

/-- A finished run: final state, the effects in execution order, and how the
run ended. -/
structure RunResult where
  st : St
  effects : List Effect
  outcome : Outcome
  deriving Repr, DecidableEq

/-! ## Constants of src/sdk-installer.ts (lines 6-10) -/

def BUILD_TOOLS_VERSION : String := "30.0.0"

def CMDLINE_TOOLS_URL_MAC : String :=
  "https://dl.google.com/android/repository/commandlinetools-mac-6609375_latest.zip"

def CMDLINE_TOOLS_URL_LINUX : String :=
  "https://dl.google.com/android/repository/commandlinetools-linux-6609375_latest.zip"

def BASE_ANDROID_SDK_URL_MAC : String :=
  "https://dl.google.com/android/repository/sdk-tools-darwin-4333796.zip"

def BASE_ANDROID_SDK_URL_LINUX : String :=
  "https://dl.google.com/android/repository/sdk-tools-linux-4333796.zip"

/-! ## The literal strings the source builds (messages and shell commands) -/

/-- Line 21. -/
def androidHomeMissingMsg : String :=
  "ANDROID_HOME is a required environment variable and is not set.\nPlease double check your host settings."

/-- Line 26; the source uses single quotes, so the placeholder is literal
text, not interpolation. -/
def usingPrevMsg : String :=
  "Using previous installation of base Android SDK, found on $\x7bprocess.env.ANDROID_HOME\x7d"

/-- Line 30. -/
def couldNotInstallBaseMsg : String := "Could not install base Android SDK."

/-- Line 35. -/
def couldNotAcceptLicensesMsg : String := "Could not accept Android SDK licenses."

/-- Line 45; the source's template leaves the escaped double quote unclosed. -/
def chownCmd (ah : String) : String :=
  "sh -c \\\"sudo chown $USER:$USER " ++ ah ++ " -R"

/-- Line 53. -/
def curlCmdlineCmd (url : String) : String :=
  "curl -fo commandlinetools.zip " ++ url

/-- Line 54. -/
def unzipCmdlineCmd (p : String) : String :=
  "unzip -q commandlinetools.zip -d " ++ p

/-- Line 64. -/
def previewLicenseHash : String := "\n84831b9409646a918e30573bab4c9c91346d8abd"

/-- Line 70. -/
def armDbtLicenseHash : String := "\n859f317696f67ef3d7f30a50a5560e7834b43903"

/-- Line 75. -/
def sdkmanagerBaseCmd (apiLevel : Nat) : String :=
  "sh -c \\\"sdkmanager --install 'build-tools;" ++ BUILD_TOOLS_VERSION ++
    "' platform-tools 'platforms;android-" ++ toString apiLevel ++ "' > /dev/null\""

/-- Line 78; `plat` is "darwin" or "linux". -/
def curlEmulatorCmd (plat eb : String) : String :=
  "curl -fo emulator.zip https://dl.google.com/android/repository/emulator-" ++
    plat ++ "-" ++ eb ++ ".zip"

/-- Line 80. -/
def unzipEmulatorCmd (ah : String) : String :=
  "unzip -q emulator.zip -d " ++ ah

/-- Line 84. -/
def sdkmanagerEmulatorCmd : String :=
  "sh -c \\\"sdkmanager --install emulator > /dev/null\""

/-- Line 87. -/
def sdkmanagerSysImgCmd (apiLevel : Nat) (target arch : String) : String :=
  "sh -c \\\"sdkmanager --install 'system-images;android-" ++ toString apiLevel ++
    ";" ++ target ++ ";" ++ arch ++ "' > /dev/null\""

/-- Line 91. -/
def sdkmanagerNdkCmd (v : String) : String :=
  "sh -c \\\"sdkmanager --install 'ndk;" ++ v ++ "' > /dev/null\""

/-- Line 95. -/
def sdkmanagerCmakeCmd (v : String) : String :=
  "sh -c \\\"sdkmanager --install 'cmake;" ++ v ++ "' > /dev/null\""

/-- Line 102. -/
def androidTmpPath : String := "/tmp/android-sdk.zip"

/-- Line 110. -/
def mvBackupCmd (sdkHome : String) (now : Nat) : String :=
  "mv " ++ sdkHome ++ " " ++ sdkHome ++ ".backup." ++ toString now

/-- Line 113. -/
def curlBaseCmd (url : String) : String :=
  "curl -L " ++ url ++ " -o " ++ androidTmpPath ++ " -s"

/-- Line 114. -/
def unzipBaseCmd (ah : String) : String :=
  "unzip -q " ++ androidTmpPath ++ " -d " ++ ah

/-- Line 115. -/
def rmBaseCmd : String := "rm " ++ androidTmpPath

/-- Lines 116 and 137 and 139. -/
def mkdirCmd (p : String) : String := "mkdir -p " ++ p

/-- Line 119: the five tool directories prepended to the search path. -/
def extraPaths (ah : String) : String :=
  ah ++ "/bin:" ++ ah ++ "/tools:" ++ ah ++ "/tools/bin:" ++
    ah ++ "/platform-tools:" ++ ah ++ "/platform-tools/bin"

/-- Lines 122-127: the prior search path with every segment that contains
"Android" removed. -/
def pathWithoutAndroid (path : String) : String :=
  joinSep ":" ((jsSplit path ':').filter (fun entry => !(jsIncludes entry "Android")))

/-- Line 138. -/
def touchRepositoriesCmd (sdkHome : String) : String :=
  "touch " ++ sdkHome ++ "/repositories.cfg"

/-- Line 140. -/
def yesLicensesCmd (ah : String) : String :=
  "sh -c \\\"yes 'y' | " ++ ah ++ "/tools/bin/sdkmanager --licenses > /dev/null\""

/-! ## Node API model -/

/-- Model of Node's `fs.writeFileSync`: creates or overwrites the file when
its directory exists, and throws (here: returns the offending path as an
error) when the directory does not exist. -/
def writeFileSync (s : St) (p content : String) : Except String (St × Effect) :=
  if existsSync s.fs (parentDir p) then
    Except.ok ({ s with fs := addFsPath s.fs p }, Effect.writeFileSync p content)
  else
    Except.error p

/-! ## The embedded source functions -/

/-- Lines 99-131, `installBaseSdk`: select the platform URL, export
ANDROID_SDK_HOME, back up a pre-existing sdk_home by renaming it with a
timestamp suffix, download and unpack the base SDK, delete the archive,
recreate sdk_home, and export a PATH with the five tool directories
prepended and every prior segment containing "Android" filtered out.
Returns `true` unconditionally (line 130). -/
def installBaseSdk (s0 : St) : St × List Effect × Bool :=
  let isOnMac := s0.env.platform == "darwin"
  let baseSdkUrl := if isOnMac then BASE_ANDROID_SDK_URL_MAC else BASE_ANDROID_SDK_URL_LINUX
  let androidHome := jsStr s0.env.androidHome
  let sdkHome := androidHome ++ "/sdk_home"
  let s1 : St := { s0 with env := { s0.env with androidSdkHome := some sdkHome } }
  let backup : St × List Effect :=
    if existsSync s1.fs sdkHome then
      ({ s1 with fs := addFsPath (removeFsTree s1.fs sdkHome) (sdkHome ++ ".backup." ++ toString s1.env.now) },
       [Effect.execCmd (mvBackupCmd sdkHome s1.env.now)])
    else (s1, [])
  let s2 := backup.1
  let s3 : St := { s2 with fs := addFsPath s2.fs androidTmpPath }
  let s4 : St := { s3 with fs := addFsPath s3.fs androidHome }
  let s5 : St := { s4 with fs := removeFsTree s4.fs androidTmpPath }
  let s6 : St := { s5 with fs := addFsPath s5.fs sdkHome }
  let path := jsOr s6.env.pathVar
  let newPath := extraPaths androidHome ++ ":" ++ pathWithoutAndroid path
  let s7 : St := { s6 with env := { s6.env with pathVar := some newPath } }
  (s7,
   [Effect.log ("Installing Android SDK on " ++ androidHome),
    Effect.exportVariable "ANDROID_SDK_HOME" sdkHome]
   ++ backup.2 ++
   [Effect.execCmd (curlBaseCmd baseSdkUrl),
    Effect.execCmd (unzipBaseCmd androidHome),
    Effect.execCmd rmBaseCmd,
    Effect.execCmd (mkdirCmd sdkHome),
    Effect.exportVariable "PATH" newPath],
   true)

/-- Lines 133-142, `acceptLicenses`: create the SDK home and licenses
directories, touch repositories.cfg, and pipe an affirmative answer into the
license-listing command. Returns `true` unconditionally (line 141). -/
def acceptLicenses (s0 : St) : St × List Effect × Bool :=
  let androidHome := jsStr s0.env.androidHome
  let sdkHomeStr := jsStr s0.env.androidSdkHome
  let s1 : St := { s0 with fs := addFsPath s0.fs sdkHomeStr }
  let s2 : St := { s1 with fs := addFsPath s1.fs (sdkHomeStr ++ "/repositories.cfg") }
  let s3 : St := { s2 with fs := addFsPath s2.fs (androidHome ++ "/licenses") }
  (s3,
   [Effect.log ("Accepting Android SDK licenses on " ++ androidHome),
    Effect.execCmd (mkdirCmd sdkHomeStr),
    Effect.execCmd (touchRepositoriesCmd sdkHomeStr),
    Effect.execCmd (mkdirCmd (androidHome ++ "/licenses")),
    Effect.execCmd (yesLicensesCmd androidHome)],
   true)

/-- Lines 25-38 of `installAndroidSdk`: reuse an existing SDK root, or run
the base installer and the license acceptor, aborting with `core.setFailed`
when either reports failure. -/
def baseSection (s0 : St) : Except RunResult (St × List Effect) :=
  if existsSync s0.fs (jsStr s0.env.androidHome) then
    Except.ok (s0, [Effect.log usingPrevMsg])
  else
    let b := installBaseSdk s0
    let installed := b.2.2
    if !installed then
      Except.error { st := b.1, effects := b.2.1 ++ [Effect.setFailed couldNotInstallBaseMsg],
                     outcome := Outcome.failed }
    else
      let a := acceptLicenses b.1
      let licenses := a.2.2
      if !installed || !licenses then
        Except.error { st := a.1, effects := b.2.1 ++ a.2.1 ++ [Effect.setFailed couldNotAcceptLicensesMsg],
                       outcome := Outcome.failed }
      else
        Except.ok (a.1, b.2.1 ++ a.2.1)

/-- Lines 41-46: recursively chown the SDK root, on non-macOS platforms
only and only when the fresh-sdk-installation input is empty (falsy). -/
def chownStep (isOnMac : Bool) (ah : String) (s : St) : St × List Effect :=
  if !isOnMac && s.env.freshSdkInstallation == "" then
    (s, [Effect.execCmd (chownCmd ah)])
  else (s, [])

/-- Lines 48-59: when cmdline-tools is absent, create it, download and
unpack the platform archive, delete the archive, and add the tool
directories to the search path. -/
def cmdlineStep (isOnMac : Bool) (ah : String) (s : St) : St × List Effect :=
  let cmdlineToolsPath := ah ++ "/cmdline-tools"
  if !(existsSync s.fs cmdlineToolsPath) then
    let sdkUrl := if isOnMac then CMDLINE_TOOLS_URL_MAC else CMDLINE_TOOLS_URL_LINUX
    let addedPath := cmdlineToolsPath ++ "/tools:" ++ cmdlineToolsPath ++ "/tools/bin:" ++ ah ++ "/platform-tools"
    let fs1 := addFsPath s.fs cmdlineToolsPath
    let fs2 := addFsPath fs1 "commandlinetools.zip"
    let fs3 := removeFsTree fs2 "commandlinetools.zip"
    let env1 := { s.env with pathVar := some (addedPath ++ ":" ++ jsStr s.env.pathVar) }
    ({ fs := fs3, env := env1 },
     [Effect.log "Installing new cmdline-tools.",
      Effect.mkdirP cmdlineToolsPath,
      Effect.execCmd (curlCmdlineCmd sdkUrl),
      Effect.execCmd (unzipCmdlineCmd cmdlineToolsPath),
      Effect.rmRF "commandlinetools.zip",
      Effect.addPath addedPath])
  else (s, [])

/-- One guarded license-marker write (the common shape of lines 63-65 and
69-71): when `cond` holds and the marker is absent, write it; a thrown path
comes back in the third component. -/
def writeLicenseIfAbsent (cond : Bool) (p hash : String) (s : St) :
    St × List Effect × Option String :=
  if cond && !(existsSync s.fs p) then
    match writeFileSync s p hash with
    | Except.error q => (s, [], some q)
    | Except.ok (s1, e) => (s1, [e], none)
  else (s, [], none)

/-- Lines 62-71: write the android-sdk-preview-license marker when absent on
non-macOS platforms, then the android-sdk-arm-dbt-license marker when absent
and the API level is 30. Either `fs.writeFileSync` throws when the licenses
directory does not exist; the thrown path is returned in the third
component. -/
def licenseSteps (isOnMac : Bool) (apiLevel : Nat) (ah : String) (s : St) :
    St × List Effect × Option String :=
  let first := writeLicenseIfAbsent (!isOnMac) (ah ++ "/licenses/android-sdk-preview-license")
    previewLicenseHash s
  match first with
  | (s1, es1, some p) => (s1, es1, some p)
  | (s1, es1, none) =>
    let second := writeLicenseIfAbsent (apiLevel == 30) (ah ++ "/licenses/android-sdk-arm-dbt-license")
      armDbtLicenseHash s1
    (second.1, es1 ++ second.2.1, second.2.2)

/-- Lines 73-96: install build tools, platform tools and the platform; then
the emulator (a pinned build replaces the emulator directory wholesale, no
build id installs the latest through sdkmanager); then the system image; then
NDK and CMake when versions are supplied. -/
def packagesTail (isOnMac : Bool) (apiLevel : Nat) (target arch : String)
    (emulatorBuild ndkVersion cmakeVersion : Option String) (ah : String) (s : St) :
    St × List Effect :=
  let es0 := [Effect.log "Installing latest build tools, platform tools, and platform.",
              Effect.execCmd (sdkmanagerBaseCmd apiLevel)]
  let emu : St × List Effect :=
    if truthy emulatorBuild then
      let eb := jsStr emulatorBuild
      let fs1 := addFsPath s.fs "emulator.zip"
      let fs2 := removeFsTree fs1 (ah ++ "/emulator")
      let fs3 := addFsPath fs2 ah
      let fs4 := removeFsTree fs3 "emulator.zip"
      ({ s with fs := fs4 },
       [Effect.log ("Installing emulator build " ++ eb ++ "."),
        Effect.execCmd (curlEmulatorCmd (if isOnMac then "darwin" else "linux") eb),
        Effect.rmRF (ah ++ "/emulator"),
        Effect.execCmd (unzipEmulatorCmd ah),
        Effect.rmRF "emulator.zip"])
    else
      (s, [Effect.log "Installing latest emulator.",
           Effect.execCmd sdkmanagerEmulatorCmd])
  let es2 := [Effect.log "Installing system images.",
              Effect.execCmd (sdkmanagerSysImgCmd apiLevel target arch)]
  let es3 :=
    if truthy ndkVersion then
      [Effect.log ("Installing NDK " ++ jsStr ndkVersion ++ "."),
       Effect.execCmd (sdkmanagerNdkCmd (jsStr ndkVersion))]
    else []
  let es4 :=
    if truthy cmakeVersion then
      [Effect.log ("Installing CMake " ++ jsStr cmakeVersion ++ "."),
       Effect.execCmd (sdkmanagerCmakeCmd (jsStr cmakeVersion))]
    else []
  (emu.1, es0 ++ emu.2 ++ es2 ++ es3 ++ es4)

/-- Lines 41-96: everything after the base section, given the continuation
state and the effects accumulated so far: the chown step, the cmdline-tools
step, the license-marker writes (which may throw, ending the run early), and
the package installations. -/
def afterBase (apiLevel : Nat) (target arch : String)
    (emulatorBuild ndkVersion cmakeVersion : Option String) (s0 : St)
    (p : St × List Effect) : RunResult :=
  let isOnMac := s0.env.platform == "darwin"
  let ah := jsStr s0.env.androidHome
  let c := chownStep isOnMac ah p.1
  let d := cmdlineStep isOnMac ah c.1
  match licenseSteps isOnMac apiLevel ah d.1 with
  | (s4, es4, some q) =>
    { st := s4, effects := p.2 ++ c.2 ++ d.2 ++ es4, outcome := Outcome.exn q }
  | (s4, es4, none) =>
    let t := packagesTail isOnMac apiLevel target arch emulatorBuild ndkVersion cmakeVersion ah s4
    { st := t.1, effects := p.2 ++ c.2 ++ d.2 ++ es4 ++ t.2, outcome := Outcome.ok }

/-- The pair the base section produces on its (always taken) success path:
the state and effects of lines 25-38. -/
def baseOkPair (s : St) : St × List Effect :=
  if existsSync s.fs (jsStr s.env.androidHome) then (s, [Effect.log usingPrevMsg])
  else ((acceptLicenses (installBaseSdk s).1).1,
        (installBaseSdk s).2.1 ++ (acceptLicenses (installBaseSdk s).1).2.1)

/-- Lines 16-97, `installAndroidSdk`: the whole bootstrap. Aborts with
`core.setFailed` when ANDROID_HOME is unset or empty; otherwise runs the
base section and then the rest of the pipeline. -/
def installAndroidSdk (apiLevel : Nat) (target arch : String)
    (emulatorBuild ndkVersion cmakeVersion : Option String) (s0 : St) : RunResult :=
  if !(truthy s0.env.androidHome) then
    { st := s0, effects := [Effect.setFailed androidHomeMissingMsg], outcome := Outcome.failed }
  else
    match baseSection s0 with
    | Except.error r => r
    | Except.ok p => afterBase apiLevel target arch emulatorBuild ndkVersion cmakeVersion s0 p

/-! ## Concrete states used by witnesses and counterexamples -/

/-- A warm Linux runner: SDK root, cmdline-tools and the licenses directory
already exist; no license marker present yet. -/
def warmLinuxState : St :=
  { fs := ["/sdk", "/sdk/cmdline-tools", "/sdk/licenses"],
    env := { platform := "linux", androidHome := some "/sdk", freshSdkInstallation := "",
             pathVar := some "/usr/bin", androidSdkHome := none, now := 0 } }

/-- The warm runner, but on macOS. -/
def warmMacState : St :=
  { fs := ["/sdk", "/sdk/cmdline-tools", "/sdk/licenses"],
    env := { platform := "darwin", androidHome := some "/sdk", freshSdkInstallation := "",
             pathVar := some "/usr/bin", androidSdkHome := none, now := 0 } }

/-- A bare Linux runner: nothing installed yet. -/
def freshLinuxState : St :=
  { fs := [],
    env := { platform := "linux", androidHome := some "/sdk", freshSdkInstallation := "",
             pathVar := some "/usr/bin", androidSdkHome := none, now := 0 } }

/-- A Linux runner whose SDK root already holds an sdk_home directory. -/
def sdkHomeState : St :=
  { fs := ["/sdk/sdk_home"],
    env := { platform := "linux", androidHome := some "/sdk", freshSdkInstallation := "",
             pathVar := some "/usr/bin", androidSdkHome := none, now := 17 } }

/-- The standard macOS SDK location: ANDROID_HOME itself contains the
substring "Android", and the prior PATH holds one segment underneath it. -/
def androidInHomeState : St :=
  { fs := [],
    env := { platform := "linux", androidHome := some "/Users/runner/Library/Android/sdk",
             freshSdkInstallation := "",
             pathVar := some "/Users/runner/Library/Android/sdk/bin",
             androidSdkHome := none, now := 0 } }

/-- A warm macOS runner with the licenses directory present and no marker
files. -/
def macApi30State : St :=
  { fs := ["/sdk", "/sdk/cmdline-tools", "/sdk/licenses"],
    env := { platform := "darwin", androidHome := some "/sdk", freshSdkInstallation := "",
             pathVar := some "", androidSdkHome := none, now := 0 } }

/-- A warm Linux runner whose SDK root exists but whose licenses directory
does not. -/
def noLicensesDirState : St :=
  { fs := ["/sdk", "/sdk/cmdline-tools"],
    env := { platform := "linux", androidHome := some "/sdk", freshSdkInstallation := "",
             pathVar := some "/usr/bin", androidSdkHome := none, now := 0 } }

/-! ## String and list helper lemmas -/

/-- Two strings with equal character lists are equal. -/
theorem str_ext {x y : String} (h : x.data = y.data) : x = y := by
  cases x; cases y; simp_all

theorem existsSync_iff {fs : List String} {p : String} :
    existsSync fs p = true ↔ p ∈ fs := by
  simp [existsSync, List.contains, List.elem_iff]

/-- A string with the constant head `a` differs from `b` whenever `a` is not
a prefix of `b`. -/
theorem append_ne_left {a b : String} (x : String)
    (h : List.isPrefixOf a.data b.data = false) : a ++ x ≠ b := by
  intro he
  have hd : a.data ++ x.data = b.data := by
    rw [← String.data_append, he]
  have hp : a.data <+: b.data := ⟨x.data, hd⟩
  rw [← List.isPrefixOf_iff_prefix] at hp
  simp [h] at hp

theorem ne_append_left {a b : String} (x : String)
    (h : List.isPrefixOf a.data b.data = false) : b ≠ a ++ x :=
  fun he => append_ne_left x h he.symm

/-- A string with the constant tail `x` differs from `b` whenever the
reversal of `x` is not a prefix of the reversal of `b`. -/
theorem append_ne_of_suffix {x b : String} (a : String)
    (h : List.isPrefixOf x.data.reverse b.data.reverse = false) : a ++ x ≠ b := by
  intro he
  have hd : a.data ++ x.data = b.data := by
    rw [← String.data_append, he]
  have hp : x.data.reverse <+: b.data.reverse := by
    refine ⟨a.data.reverse, ?_⟩
    rw [← List.reverse_append a.data x.data, hd]
  rw [← List.isPrefixOf_iff_prefix] at hp
  simp [h] at hp

theorem ne_append_of_suffix {x b : String} (a : String)
    (h : List.isPrefixOf x.data.reverse b.data.reverse = false) : b ≠ a ++ x :=
  fun he => append_ne_of_suffix a h he.symm

/-- Strings with incomparable constant heads are distinct, whatever their
tails. -/
theorem append_ne_append {a b : String} (x y : String)
    (h1 : List.isPrefixOf a.data b.data = false)
    (h2 : List.isPrefixOf b.data a.data = false) : a ++ x ≠ b ++ y := by
  intro he
  have hd : a.data ++ x.data = b.data ++ y.data := by
    rw [← String.data_append, ← String.data_append, he]
  have hp : a.data <+: b.data ++ y.data := ⟨x.data, hd⟩
  have hq : b.data <+: b.data ++ y.data := ⟨y.data, rfl⟩
  rcases List.prefix_or_prefix_of_prefix hp hq with hc | hc <;>
    rw [← List.isPrefixOf_iff_prefix] at hc
  · simp [h1] at hc
  · simp [h2] at hc

/-- Left cancellation: a common head reduces string inequality to tail
inequality. -/
theorem append_left_cancel_ne {x y : String} (a : String) (h : x ≠ y) :
    a ++ x ≠ a ++ y := by
  intro he
  apply h
  apply str_ext
  have hd : a.data ++ x.data = a.data ++ y.data := by
    rw [← String.data_append, ← String.data_append, he]
  exact List.append_cancel_left hd

/-- A string never equals itself extended by a nonempty tail. -/
theorem ne_self_append {x : String} (a : String) (h : x ≠ "") : a ≠ a ++ x := by
  intro he
  apply h
  have hd : a.data = a.data ++ x.data := by
    rw [← String.data_append, ← he]
  have : x.data = [] := by
    have h2 := congrArg List.length hd
    rw [List.length_append] at h2
    have h3 : x.data.length = 0 := by omega
    exact List.length_eq_zero.mp h3
  exact str_ext (by simp [this])

theorem append_ne_self {x : String} (a : String) (h : x ≠ "") : a ++ x ≠ a :=
  fun he => ne_self_append a h he.symm

/-- A prefix check fails on a longer pattern than the text. -/
theorem isPrefixOf_eq_false_of_lt {p l : List Char} (h : l.length < p.length) :
    List.isPrefixOf p l = false := by
  by_contra hc
  have : p <+: l := by
    rw [← List.isPrefixOf_iff_prefix]
    simpa using hc
  exact absurd this.length_le (by omega)

/-- A prefix check under a shared head reduces to the tails. -/
theorem isPrefixOf_append_cancel {u v : List Char} (a : List Char) :
    List.isPrefixOf (a ++ u) (a ++ v) = List.isPrefixOf u v := by
  induction a with
  | nil => rfl
  | cons c cs ih => simpa [List.isPrefixOf_cons₂] using ih

/-- A prefix check fails when the heads already disagree. -/
theorem isPrefixOf_eq_false_of_head {p l : List Char} {c h : Char}
    (hp : p.head? = some c) (hl : l.head? = some h) (hne : c ≠ h) :
    List.isPrefixOf p l = false := by
  cases p with
  | nil => simp at hp
  | cons a as =>
    cases l with
    | nil => simp
    | cons b bs =>
      simp at hp hl
      subst hp hl
      simp [List.isPrefixOf_cons₂, hne]

/-! ## Split and join lemmas (for `parentDir` and the PATH rewrite) -/

theorem splitOnChar_ne_nil (sep : Char) (l : List Char) : splitOnChar sep l ≠ [] := by
  cases l with
  | nil => simp [splitOnChar]
  | cons c cs =>
    simp only [splitOnChar]
    by_cases h : (c == sep) = true
    · simp [h]
    · simp only [h]
      rcases hr : splitOnChar sep cs with _ | ⟨g, gs⟩ <;> simp

/-- Splitting distributes over a separator that joins two pieces. -/
theorem splitOnChar_append_sep (sep : Char) (u v : List Char) :
    splitOnChar sep (u ++ sep :: v) = splitOnChar sep u ++ splitOnChar sep v := by
  induction u with
  | nil => simp [splitOnChar]
  | cons c cs ih =>
    simp only [List.cons_append, splitOnChar, List.append_eq]
    by_cases h : (c == sep) = true
    · simp [h, ih]
    · rcases hr : splitOnChar sep cs with _ | ⟨g, gs⟩
      · exact absurd hr (splitOnChar_ne_nil sep cs)
      · rw [ih, hr]
        simp [h]

/-- A separator-free list splits into itself. -/
theorem splitOnChar_no_sep (sep : Char) (v : List Char) (h : sep ∉ v) :
    splitOnChar sep v = [v] := by
  induction v with
  | nil => simp [splitOnChar]
  | cons c cs ih =>
    simp only [List.mem_cons, not_or] at h
    simp only [splitOnChar, ih h.2]
    have : (c == sep) = false := by
      simp [Ne.symm h.1]
    simp [this]

/-- Joining the pieces of a split restores the original characters. -/
theorem joinSep_splitOnChar_data (l : List Char) :
    (joinSep "/" ((splitOnChar '/' l).map String.mk)).data = l := by
  induction l with
  | nil => simp [splitOnChar, joinSep]
  | cons c cs ih =>
    simp only [splitOnChar]
    by_cases h : (c == '/') = true
    · rcases hr : splitOnChar '/' cs with _ | ⟨g, gs⟩
      · exact absurd hr (splitOnChar_ne_nil '/' cs)
      · rw [hr] at ih
        simp only [h, if_true, List.map_cons, joinSep, String.data_append]
        have hc : c = '/' := by simpa using h
        subst hc
        simpa using ih
    · simp only [h, if_false]
      rcases hr : splitOnChar '/' cs with _ | ⟨g, gs⟩
      · exact absurd hr (splitOnChar_ne_nil '/' cs)
      · rw [hr] at ih
        cases gs with
        | nil => simpa [joinSep] using congrArg (c :: ·) ih
        | cons g2 gs2 =>
          simp only [List.map_cons, joinSep, String.data_append] at ih ⊢
          simp_all

/-- The parent directory of `p ++ "/" ++ leaf` for a slash-free leaf is `p`. -/
theorem parentDir_concat (p leaf : String) (h : ('/' : Char) ∉ leaf.data) :
    parentDir (p ++ "/" ++ leaf) = p := by
  unfold parentDir
  have hdata : (p ++ "/" ++ leaf).data = p.data ++ '/' :: leaf.data := by
    rw [String.data_append, String.data_append]
    simp
  rw [hdata, splitOnChar_append_sep, splitOnChar_no_sep '/' leaf.data h]
  rw [List.dropLast_concat]
  exact str_ext (joinSep_splitOnChar_data p.data)

/-! ## Characterization lemmas -/

/-- Line 130: `installBaseSdk` returns true unconditionally. -/
theorem installBaseSdk_true (s : St) : (installBaseSdk s).2.2 = true := rfl

/-- Line 141: `acceptLicenses` returns true unconditionally. -/
theorem acceptLicenses_true (s : St) : (acceptLicenses s).2.2 = true := rfl

/-- The base section never takes its failure branches: both helpers report
success, so it always yields a continuation state. -/
theorem baseSection_eq (s : St) : baseSection s = Except.ok (baseOkPair s) := by
  unfold baseSection baseOkPair
  split
  · rfl
  · simp [installBaseSdk_true, acceptLicenses_true]

/-- Guarded run characterization: when ANDROID_HOME is truthy the run is the
base section's success pair fed to the rest of the pipeline. -/
theorem installAndroidSdk_eq (api : Nat) (t a : String) (eb ndk cmk : Option String)
    (s : St) (hT : truthy s.env.androidHome = true) :
    installAndroidSdk api t a eb ndk cmk s = afterBase api t a eb ndk cmk s (baseOkPair s) := by
  unfold installAndroidSdk
  rw [baseSection_eq]
  simp [hT]

/-- Effects of the post-base pipeline: the accumulated effects, the chown
step, the cmdline-tools step, the license writes, and (when no write threw)
the package installations. -/
theorem afterBase_effects (api : Nat) (t a : String) (eb ndk cmk : Option String)
    (s0 : St) (p : St × List Effect) :
    (afterBase api t a eb ndk cmk s0 p).effects =
      p.2 ++ (chownStep (s0.env.platform == "darwin") (jsStr s0.env.androidHome) p.1).2 ++
      (cmdlineStep (s0.env.platform == "darwin") (jsStr s0.env.androidHome)
        (chownStep (s0.env.platform == "darwin") (jsStr s0.env.androidHome) p.1).1).2 ++
      (licenseSteps (s0.env.platform == "darwin") api (jsStr s0.env.androidHome)
        (cmdlineStep (s0.env.platform == "darwin") (jsStr s0.env.androidHome)
          (chownStep (s0.env.platform == "darwin") (jsStr s0.env.androidHome) p.1).1).1).2.1 ++
      (match (licenseSteps (s0.env.platform == "darwin") api (jsStr s0.env.androidHome)
          (cmdlineStep (s0.env.platform == "darwin") (jsStr s0.env.androidHome)
            (chownStep (s0.env.platform == "darwin") (jsStr s0.env.androidHome) p.1).1).1).2.2 with
        | some _ => []
        | none =>
          (packagesTail (s0.env.platform == "darwin") api t a eb ndk cmk (jsStr s0.env.androidHome)
            (licenseSteps (s0.env.platform == "darwin") api (jsStr s0.env.androidHome)
              (cmdlineStep (s0.env.platform == "darwin") (jsStr s0.env.androidHome)
                (chownStep (s0.env.platform == "darwin") (jsStr s0.env.androidHome) p.1).1).1).1).2) := by
  unfold afterBase
  rcases hL : licenseSteps (s0.env.platform == "darwin") api (jsStr s0.env.androidHome)
      (cmdlineStep (s0.env.platform == "darwin") (jsStr s0.env.androidHome)
        (chownStep (s0.env.platform == "darwin") (jsStr s0.env.androidHome) p.1).1).1
    with ⟨s4, es4, o⟩
  cases o <;> simp [hL]

/-- Outcome of the post-base pipeline: an exception exactly when a license
write threw, otherwise a normal completion. -/
theorem afterBase_outcome (api : Nat) (t a : String) (eb ndk cmk : Option String)
    (s0 : St) (p : St × List Effect) :
    (afterBase api t a eb ndk cmk s0 p).outcome =
      (match (licenseSteps (s0.env.platform == "darwin") api (jsStr s0.env.androidHome)
          (cmdlineStep (s0.env.platform == "darwin") (jsStr s0.env.androidHome)
            (chownStep (s0.env.platform == "darwin") (jsStr s0.env.androidHome) p.1).1).1).2.2 with
        | some q => Outcome.exn q
        | none => Outcome.ok) := by
  unfold afterBase
  rcases hL : licenseSteps (s0.env.platform == "darwin") api (jsStr s0.env.androidHome)
      (cmdlineStep (s0.env.platform == "darwin") (jsStr s0.env.androidHome)
        (chownStep (s0.env.platform == "darwin") (jsStr s0.env.androidHome) p.1).1).1
    with ⟨s4, es4, o⟩
  cases o <;> simp [hL]

theorem installBaseSdk_no_setFailed (s : St) (m : String) :
    Effect.setFailed m ∉ (installBaseSdk s).2.1 := by
  simp only [installBaseSdk]
  split <;> simp

theorem acceptLicenses_no_setFailed (s : St) (m : String) :
    Effect.setFailed m ∉ (acceptLicenses s).2.1 := by
  simp [acceptLicenses]

theorem chownStep_no_setFailed (b : Bool) (ah : String) (s : St) (m : String) :
    Effect.setFailed m ∉ (chownStep b ah s).2 := by
  unfold chownStep
  split <;> simp

theorem cmdlineStep_no_setFailed (b : Bool) (ah : String) (s : St) (m : String) :
    Effect.setFailed m ∉ (cmdlineStep b ah s).2 := by
  unfold cmdlineStep
  by_cases h : existsSync s.fs (ah ++ "/cmdline-tools") = false <;> simp [h]

theorem writeLicenseIfAbsent_no_setFailed (c : Bool) (p hash : String) (s : St) (m : String) :
    Effect.setFailed m ∉ (writeLicenseIfAbsent c p hash s).2.1 := by
  unfold writeLicenseIfAbsent writeFileSync
  by_cases hc : (c && !(existsSync s.fs p)) = true <;>
    by_cases hd : existsSync s.fs (parentDir p) = true <;>
      simp [hc, hd]

theorem licenseSteps_no_setFailed (b : Bool) (api : Nat) (ah : String) (s : St) (m : String) :
    Effect.setFailed m ∉ (licenseSteps b api ah s).2.1 := by
  unfold licenseSteps
  rcases h1 : writeLicenseIfAbsent (!b) (ah ++ "/licenses/android-sdk-preview-license")
      previewLicenseHash s with ⟨s1, es1, o⟩
  have := writeLicenseIfAbsent_no_setFailed (!b) (ah ++ "/licenses/android-sdk-preview-license")
    previewLicenseHash s m
  rw [h1] at this
  cases o
  · simp only []
    intro hmem
    rcases List.mem_append.mp hmem with h | h
    · exact this h
    · exact writeLicenseIfAbsent_no_setFailed _ _ _ _ m h
  · simpa using this

theorem packagesTail_no_setFailed (b : Bool) (api : Nat) (t a : String)
    (eb ndk cmk : Option String) (ah : String) (s : St) (m : String) :
    Effect.setFailed m ∉ (packagesTail b api t a eb ndk cmk ah s).2 := by
  unfold packagesTail
  repeat' split
  all_goals simp

theorem baseOkPair_no_setFailed (s : St) (m : String) :
    Effect.setFailed m ∉ (baseOkPair s).2 := by
  unfold baseOkPair
  split
  · simp
  · simp only [List.mem_append, not_or]
    exact ⟨installBaseSdk_no_setFailed _ _, acceptLicenses_no_setFailed _ _⟩

/-- The only `core.setFailed` the bootstrap can ever issue is the missing
ANDROID_HOME report from line 21. -/
theorem setFailed_only_missing_home (api : Nat) (t a : String)
    (eb ndk cmk : Option String) (s : St) (m : String)
    (hm : m ≠ androidHomeMissingMsg) :
    Effect.setFailed m ∉ (installAndroidSdk api t a eb ndk cmk s).effects := by
  by_cases hT : truthy s.env.androidHome = true
  · rw [installAndroidSdk_eq api t a eb ndk cmk s hT, afterBase_effects]
    simp only [List.mem_append, not_or]
    refine ⟨⟨⟨⟨baseOkPair_no_setFailed s m, chownStep_no_setFailed _ _ _ m⟩,
      cmdlineStep_no_setFailed _ _ _ m⟩, licenseSteps_no_setFailed _ _ _ _ m⟩, ?_⟩
    split
    · simp
    · exact packagesTail_no_setFailed _ _ _ _ _ _ _ _ _ m
  · unfold installAndroidSdk
    simp only [Bool.not_eq_true] at hT
    simp [hT, hm]

/-! ## Section inventories and state facts -/

theorem chownStep_fst (b : Bool) (ah : String) (s : St) : (chownStep b ah s).1 = s := by
  unfold chownStep
  split <;> rfl

theorem chownStep_effects_mem (b : Bool) (ah : String) (s : St) (e : Effect)
    (he : e ∈ (chownStep b ah s).2) : e = Effect.execCmd (chownCmd ah) := by
  unfold chownStep at he
  split at he <;> simp_all

theorem chownStep_run (b : Bool) (ah : String) (s : St) :
    (chownStep b ah s).2 =
      if !b && s.env.freshSdkInstallation == "" then [Effect.execCmd (chownCmd ah)] else [] := by
  unfold chownStep
  split <;> simp_all

theorem cmdlineStep_skip (b : Bool) (ah : String) (s : St)
    (h : existsSync s.fs (ah ++ "/cmdline-tools") = true) :
    cmdlineStep b ah s = (s, []) := by
  unfold cmdlineStep
  simp [h]

theorem cmdlineStep_effects_mem (b : Bool) (ah : String) (s : St) (e : Effect)
    (he : e ∈ (cmdlineStep b ah s).2) :
    e ∈ [Effect.log "Installing new cmdline-tools.",
         Effect.mkdirP (ah ++ "/cmdline-tools"),
         Effect.execCmd (curlCmdlineCmd (if b then CMDLINE_TOOLS_URL_MAC else CMDLINE_TOOLS_URL_LINUX)),
         Effect.execCmd (unzipCmdlineCmd (ah ++ "/cmdline-tools")),
         Effect.rmRF "commandlinetools.zip",
         Effect.addPath (ah ++ "/cmdline-tools" ++ "/tools:" ++ (ah ++ "/cmdline-tools") ++
           "/tools/bin:" ++ ah ++ "/platform-tools")] := by
  unfold cmdlineStep at he
  by_cases h : existsSync s.fs (ah ++ "/cmdline-tools") = false <;> simp [h] at he <;>
    simp only [List.mem_cons, List.not_mem_nil, or_false] <;> tauto

theorem writeLicenseIfAbsent_effects_mem (c : Bool) (p hash : String) (s : St) (e : Effect)
    (he : e ∈ (writeLicenseIfAbsent c p hash s).2.1) : e = Effect.writeFileSync p hash := by
  unfold writeLicenseIfAbsent writeFileSync at he
  by_cases hc : (c && !(existsSync s.fs p)) = true <;>
    by_cases hd : existsSync s.fs (parentDir p) = true <;>
      simp [hc, hd] at he <;> simp [he]

theorem licenseSteps_effects_mem (b : Bool) (api : Nat) (ah : String) (s : St) (e : Effect)
    (he : e ∈ (licenseSteps b api ah s).2.1) :
    e = Effect.writeFileSync (ah ++ "/licenses/android-sdk-preview-license") previewLicenseHash ∨
    e = Effect.writeFileSync (ah ++ "/licenses/android-sdk-arm-dbt-license") armDbtLicenseHash := by
  unfold licenseSteps at he
  rcases h1 : writeLicenseIfAbsent (!b) (ah ++ "/licenses/android-sdk-preview-license")
      previewLicenseHash s with ⟨s1, es1, o⟩
  rw [h1] at he
  have hes1 : ∀ x ∈ es1, x = Effect.writeFileSync (ah ++ "/licenses/android-sdk-preview-license")
      previewLicenseHash := by
    intro x hx
    apply writeLicenseIfAbsent_effects_mem (!b) _ previewLicenseHash s
    rw [h1]
    exact hx
  cases o
  · simp only [] at he
    rcases List.mem_append.mp he with h | h
    · exact Or.inl (hes1 e h)
    · exact Or.inr (writeLicenseIfAbsent_effects_mem _ _ _ _ _ h)
  · exact Or.inl (hes1 e (by simpa using he))

set_option maxHeartbeats 1000000 in
theorem packagesTail_effects_mem (b : Bool) (api : Nat) (t a : String)
    (eb ndk cmk : Option String) (ah : String) (s : St) (e : Effect)
    (he : e ∈ (packagesTail b api t a eb ndk cmk ah s).2) :
    e ∈ [Effect.log "Installing latest build tools, platform tools, and platform.",
         Effect.execCmd (sdkmanagerBaseCmd api),
         Effect.log ("Installing emulator build " ++ jsStr eb ++ "."),
         Effect.execCmd (curlEmulatorCmd (if b then "darwin" else "linux") (jsStr eb)),
         Effect.rmRF (ah ++ "/emulator"),
         Effect.execCmd (unzipEmulatorCmd ah),
         Effect.rmRF "emulator.zip",
         Effect.log "Installing latest emulator.",
         Effect.execCmd sdkmanagerEmulatorCmd,
         Effect.log "Installing system images.",
         Effect.execCmd (sdkmanagerSysImgCmd api t a),
         Effect.log ("Installing NDK " ++ jsStr ndk ++ "."),
         Effect.execCmd (sdkmanagerNdkCmd (jsStr ndk)),
         Effect.log ("Installing CMake " ++ jsStr cmk ++ "."),
         Effect.execCmd (sdkmanagerCmakeCmd (jsStr cmk))] := by
  unfold packagesTail at he
  by_cases h1 : truthy eb = true <;>
    by_cases h2 : truthy ndk = true <;>
      by_cases h3 : truthy cmk = true <;>
        simp only [h1, h2, h3, if_true, if_false, ite_true, ite_false, Bool.false_eq_true,
          List.mem_append, List.mem_cons, List.not_mem_nil, or_false, false_or,
          List.append_nil, List.nil_append] at he <;>
        simp only [List.mem_cons, List.not_mem_nil, or_false] <;> tauto

theorem baseOkPair_warm (s : St) (h : existsSync s.fs (jsStr s.env.androidHome) = true) :
    baseOkPair s = (s, [Effect.log usingPrevMsg]) := by
  unfold baseOkPair
  simp [h]

/-! ## Pairwise distinctness of the issued commands -/

theorem ne_mv_curlB (sh : String) (n : Nat) (u2 : String) : mvBackupCmd sh n ≠ curlBaseCmd u2 := by
  simp [mvBackupCmd, curlBaseCmd, androidTmpPath, String.append_assoc]
  exact append_ne_append _ _ (by decide) (by decide)

theorem ne_mv_unzipB (sh : String) (n : Nat) (x2 : String) : mvBackupCmd sh n ≠ unzipBaseCmd x2 := by
  simp [mvBackupCmd, unzipBaseCmd, androidTmpPath, String.append_assoc]
  exact append_ne_append _ _ (by decide) (by decide)

theorem ne_mv_rmB (sh : String) (n : Nat) : mvBackupCmd sh n ≠ rmBaseCmd := by
  simp [mvBackupCmd, rmBaseCmd, androidTmpPath, String.append_assoc]
  exact append_ne_left _ (by decide)

theorem ne_mv_mkdir (sh : String) (n : Nat) (p2 : String) : mvBackupCmd sh n ≠ mkdirCmd p2 := by
  simp [mvBackupCmd, mkdirCmd, String.append_assoc]
  exact append_ne_append _ _ (by decide) (by decide)

theorem ne_mv_touch (sh : String) (n : Nat) (p2 : String) : mvBackupCmd sh n ≠ touchRepositoriesCmd p2 := by
  simp [mvBackupCmd, touchRepositoriesCmd, String.append_assoc]
  exact append_ne_append _ _ (by decide) (by decide)

theorem ne_mv_yes (sh : String) (n : Nat) (p2 : String) : mvBackupCmd sh n ≠ yesLicensesCmd p2 := by
  simp [mvBackupCmd, yesLicensesCmd, String.append_assoc]
  exact append_ne_append _ _ (by decide) (by decide)

theorem ne_mv_chown (sh : String) (n : Nat) (p2 : String) : mvBackupCmd sh n ≠ chownCmd p2 := by
  simp [mvBackupCmd, chownCmd, String.append_assoc]
  exact append_ne_append _ _ (by decide) (by decide)

theorem ne_mv_curlC (sh : String) (n : Nat) (u2 : String) : mvBackupCmd sh n ≠ curlCmdlineCmd u2 := by
  simp [mvBackupCmd, curlCmdlineCmd, String.append_assoc]
  exact append_ne_append _ _ (by decide) (by decide)

theorem ne_mv_unzipC (sh : String) (n : Nat) (x2 : String) : mvBackupCmd sh n ≠ unzipCmdlineCmd x2 := by
  simp [mvBackupCmd, unzipCmdlineCmd, String.append_assoc]
  exact append_ne_append _ _ (by decide) (by decide)

theorem ne_mv_sdkB (sh : String) (n : Nat) (api2 : Nat) : mvBackupCmd sh n ≠ sdkmanagerBaseCmd api2 := by
  simp [mvBackupCmd, sdkmanagerBaseCmd, BUILD_TOOLS_VERSION, String.append_assoc]
  exact append_ne_append _ _ (by decide) (by decide)

theorem ne_mv_curlE (sh : String) (n : Nat) (pl2 : String) (b2 : String) : mvBackupCmd sh n ≠ curlEmulatorCmd pl2 b2 := by
  simp [mvBackupCmd, curlEmulatorCmd, String.append_assoc]
  exact append_ne_append _ _ (by decide) (by decide)

theorem ne_mv_unzipE (sh : String) (n : Nat) (x2 : String) : mvBackupCmd sh n ≠ unzipEmulatorCmd x2 := by
  simp [mvBackupCmd, unzipEmulatorCmd, String.append_assoc]
  exact append_ne_append _ _ (by decide) (by decide)

theorem ne_mv_sdkE (sh : String) (n : Nat) : mvBackupCmd sh n ≠ sdkmanagerEmulatorCmd := by
  simp [mvBackupCmd, sdkmanagerEmulatorCmd, String.append_assoc]
  exact append_ne_left _ (by decide)

theorem ne_mv_sys (sh : String) (n : Nat) (api2 : Nat) (t2 : String) (a2 : String) : mvBackupCmd sh n ≠ sdkmanagerSysImgCmd api2 t2 a2 := by
  simp [mvBackupCmd, sdkmanagerSysImgCmd, String.append_assoc]
  exact append_ne_append _ _ (by decide) (by decide)

theorem ne_mv_ndk (sh : String) (n : Nat) (v2 : String) : mvBackupCmd sh n ≠ sdkmanagerNdkCmd v2 := by
  simp [mvBackupCmd, sdkmanagerNdkCmd, String.append_assoc]
  exact append_ne_append _ _ (by decide) (by decide)

theorem ne_mv_cmake (sh : String) (n : Nat) (v2 : String) : mvBackupCmd sh n ≠ sdkmanagerCmakeCmd v2 := by
  simp [mvBackupCmd, sdkmanagerCmakeCmd, String.append_assoc]
  exact append_ne_append _ _ (by decide) (by decide)

theorem ne_curlB_unzipB (u : String) (x2 : String) : curlBaseCmd u ≠ unzipBaseCmd x2 := by
  simp [curlBaseCmd, androidTmpPath, unzipBaseCmd, String.append_assoc]
  exact append_ne_append _ _ (by decide) (by decide)

theorem ne_curlB_rmB (u : String) : curlBaseCmd u ≠ rmBaseCmd := by
  simp [curlBaseCmd, androidTmpPath, rmBaseCmd, String.append_assoc]
  exact append_ne_left _ (by decide)

theorem ne_curlB_mkdir (u : String) (p2 : String) : curlBaseCmd u ≠ mkdirCmd p2 := by
  simp [curlBaseCmd, androidTmpPath, mkdirCmd, String.append_assoc]
  exact append_ne_append _ _ (by decide) (by decide)

theorem ne_curlB_touch (u : String) (p2 : String) : curlBaseCmd u ≠ touchRepositoriesCmd p2 := by
  simp [curlBaseCmd, androidTmpPath, touchRepositoriesCmd, String.append_assoc]
  exact append_ne_append _ _ (by decide) (by decide)

theorem ne_curlB_yes (u : String) (p2 : String) : curlBaseCmd u ≠ yesLicensesCmd p2 := by
  simp [curlBaseCmd, androidTmpPath, yesLicensesCmd, String.append_assoc]
  exact append_ne_append _ _ (by decide) (by decide)

theorem ne_curlB_chown (u : String) (p2 : String) : curlBaseCmd u ≠ chownCmd p2 := by
  simp [curlBaseCmd, androidTmpPath, chownCmd, String.append_assoc]
  exact append_ne_append _ _ (by decide) (by decide)

theorem ne_curlB_curlC (u : String) (u2 : String) : curlBaseCmd u ≠ curlCmdlineCmd u2 := by
  simp [curlBaseCmd, androidTmpPath, curlCmdlineCmd, String.append_assoc]
  exact append_ne_append _ _ (by decide) (by decide)

theorem ne_curlB_unzipC (u : String) (x2 : String) : curlBaseCmd u ≠ unzipCmdlineCmd x2 := by
  simp [curlBaseCmd, androidTmpPath, unzipCmdlineCmd, String.append_assoc]
  exact append_ne_append _ _ (by decide) (by decide)

theorem ne_curlB_sdkB (u : String) (api2 : Nat) : curlBaseCmd u ≠ sdkmanagerBaseCmd api2 := by
  simp [curlBaseCmd, androidTmpPath, sdkmanagerBaseCmd, BUILD_TOOLS_VERSION, String.append_assoc]
  exact append_ne_append _ _ (by decide) (by decide)

theorem ne_curlB_curlE (u : String) (pl2 : String) (b2 : String) : curlBaseCmd u ≠ curlEmulatorCmd pl2 b2 := by
  simp [curlBaseCmd, androidTmpPath, curlEmulatorCmd, String.append_assoc]
  exact append_ne_append _ _ (by decide) (by decide)

theorem ne_curlB_unzipE (u : String) (x2 : String) : curlBaseCmd u ≠ unzipEmulatorCmd x2 := by
  simp [curlBaseCmd, androidTmpPath, unzipEmulatorCmd, String.append_assoc]
  exact append_ne_append _ _ (by decide) (by decide)

theorem ne_curlB_sdkE (u : String) : curlBaseCmd u ≠ sdkmanagerEmulatorCmd := by
  simp [curlBaseCmd, androidTmpPath, sdkmanagerEmulatorCmd, String.append_assoc]
  exact append_ne_left _ (by decide)

theorem ne_curlB_sys (u : String) (api2 : Nat) (t2 : String) (a2 : String) : curlBaseCmd u ≠ sdkmanagerSysImgCmd api2 t2 a2 := by
  simp [curlBaseCmd, androidTmpPath, sdkmanagerSysImgCmd, String.append_assoc]
  exact append_ne_append _ _ (by decide) (by decide)

theorem ne_curlB_ndk (u : String) (v2 : String) : curlBaseCmd u ≠ sdkmanagerNdkCmd v2 := by
  simp [curlBaseCmd, androidTmpPath, sdkmanagerNdkCmd, String.append_assoc]
  exact append_ne_append _ _ (by decide) (by decide)

theorem ne_curlB_cmake (u : String) (v2 : String) : curlBaseCmd u ≠ sdkmanagerCmakeCmd v2 := by
  simp [curlBaseCmd, androidTmpPath, sdkmanagerCmakeCmd, String.append_assoc]
  exact append_ne_append _ _ (by decide) (by decide)

theorem ne_unzipB_rmB (x : String) : unzipBaseCmd x ≠ rmBaseCmd := by
  simp [unzipBaseCmd, androidTmpPath, rmBaseCmd, String.append_assoc]
  exact append_ne_left _ (by decide)

theorem ne_unzipB_mkdir (x : String) (p2 : String) : unzipBaseCmd x ≠ mkdirCmd p2 := by
  simp [unzipBaseCmd, androidTmpPath, mkdirCmd, String.append_assoc]
  exact append_ne_append _ _ (by decide) (by decide)

theorem ne_unzipB_touch (x : String) (p2 : String) : unzipBaseCmd x ≠ touchRepositoriesCmd p2 := by
  simp [unzipBaseCmd, androidTmpPath, touchRepositoriesCmd, String.append_assoc]
  exact append_ne_append _ _ (by decide) (by decide)

theorem ne_unzipB_yes (x : String) (p2 : String) : unzipBaseCmd x ≠ yesLicensesCmd p2 := by
  simp [unzipBaseCmd, androidTmpPath, yesLicensesCmd, String.append_assoc]
  exact append_ne_append _ _ (by decide) (by decide)

theorem ne_unzipB_chown (x : String) (p2 : String) : unzipBaseCmd x ≠ chownCmd p2 := by
  simp [unzipBaseCmd, androidTmpPath, chownCmd, String.append_assoc]
  exact append_ne_append _ _ (by decide) (by decide)

theorem ne_unzipB_curlC (x : String) (u2 : String) : unzipBaseCmd x ≠ curlCmdlineCmd u2 := by
  simp [unzipBaseCmd, androidTmpPath, curlCmdlineCmd, String.append_assoc]
  exact append_ne_append _ _ (by decide) (by decide)

theorem ne_unzipB_unzipC (x : String) (x2 : String) : unzipBaseCmd x ≠ unzipCmdlineCmd x2 := by
  simp [unzipBaseCmd, androidTmpPath, unzipCmdlineCmd, String.append_assoc]
  exact append_ne_append _ _ (by decide) (by decide)

theorem ne_unzipB_sdkB (x : String) (api2 : Nat) : unzipBaseCmd x ≠ sdkmanagerBaseCmd api2 := by
  simp [unzipBaseCmd, androidTmpPath, sdkmanagerBaseCmd, BUILD_TOOLS_VERSION, String.append_assoc]
  exact append_ne_append _ _ (by decide) (by decide)

theorem ne_unzipB_curlE (x : String) (pl2 : String) (b2 : String) : unzipBaseCmd x ≠ curlEmulatorCmd pl2 b2 := by
  simp [unzipBaseCmd, androidTmpPath, curlEmulatorCmd, String.append_assoc]
  exact append_ne_append _ _ (by decide) (by decide)

theorem ne_unzipB_unzipE (x : String) (x2 : String) : unzipBaseCmd x ≠ unzipEmulatorCmd x2 := by
  simp [unzipBaseCmd, androidTmpPath, unzipEmulatorCmd, String.append_assoc]
  exact append_ne_append _ _ (by decide) (by decide)

theorem ne_unzipB_sdkE (x : String) : unzipBaseCmd x ≠ sdkmanagerEmulatorCmd := by
  simp [unzipBaseCmd, androidTmpPath, sdkmanagerEmulatorCmd, String.append_assoc]
  exact append_ne_left _ (by decide)

theorem ne_unzipB_sys (x : String) (api2 : Nat) (t2 : String) (a2 : String) : unzipBaseCmd x ≠ sdkmanagerSysImgCmd api2 t2 a2 := by
  simp [unzipBaseCmd, androidTmpPath, sdkmanagerSysImgCmd, String.append_assoc]
  exact append_ne_append _ _ (by decide) (by decide)

theorem ne_unzipB_ndk (x : String) (v2 : String) : unzipBaseCmd x ≠ sdkmanagerNdkCmd v2 := by
  simp [unzipBaseCmd, androidTmpPath, sdkmanagerNdkCmd, String.append_assoc]
  exact append_ne_append _ _ (by decide) (by decide)

theorem ne_unzipB_cmake (x : String) (v2 : String) : unzipBaseCmd x ≠ sdkmanagerCmakeCmd v2 := by
  simp [unzipBaseCmd, androidTmpPath, sdkmanagerCmakeCmd, String.append_assoc]
  exact append_ne_append _ _ (by decide) (by decide)

theorem ne_rmB_mkdir (p2 : String) : rmBaseCmd ≠ mkdirCmd p2 := by
  simp [rmBaseCmd, androidTmpPath, mkdirCmd, String.append_assoc]
  exact ne_append_left _ (by decide)

theorem ne_rmB_touch (p2 : String) : rmBaseCmd ≠ touchRepositoriesCmd p2 := by
  simp [rmBaseCmd, androidTmpPath, touchRepositoriesCmd, String.append_assoc]
  exact ne_append_left _ (by decide)

theorem ne_rmB_yes (p2 : String) : rmBaseCmd ≠ yesLicensesCmd p2 := by
  simp [rmBaseCmd, androidTmpPath, yesLicensesCmd, String.append_assoc]
  exact ne_append_left _ (by decide)

theorem ne_rmB_chown (p2 : String) : rmBaseCmd ≠ chownCmd p2 := by
  simp [rmBaseCmd, androidTmpPath, chownCmd, String.append_assoc]
  exact ne_append_left _ (by decide)

theorem ne_rmB_curlC (u2 : String) : rmBaseCmd ≠ curlCmdlineCmd u2 := by
  simp [rmBaseCmd, androidTmpPath, curlCmdlineCmd, String.append_assoc]
  exact ne_append_left _ (by decide)

theorem ne_rmB_unzipC (x2 : String) : rmBaseCmd ≠ unzipCmdlineCmd x2 := by
  simp [rmBaseCmd, androidTmpPath, unzipCmdlineCmd, String.append_assoc]
  exact ne_append_left _ (by decide)

theorem ne_rmB_sdkB (api2 : Nat) : rmBaseCmd ≠ sdkmanagerBaseCmd api2 := by
  simp [rmBaseCmd, androidTmpPath, sdkmanagerBaseCmd, BUILD_TOOLS_VERSION, String.append_assoc]
  exact ne_append_left _ (by decide)

theorem ne_rmB_curlE (pl2 : String) (b2 : String) : rmBaseCmd ≠ curlEmulatorCmd pl2 b2 := by
  simp [rmBaseCmd, androidTmpPath, curlEmulatorCmd, String.append_assoc]
  exact ne_append_left _ (by decide)

theorem ne_rmB_unzipE (x2 : String) : rmBaseCmd ≠ unzipEmulatorCmd x2 := by
  simp [rmBaseCmd, androidTmpPath, unzipEmulatorCmd, String.append_assoc]
  exact ne_append_left _ (by decide)

theorem ne_rmB_sdkE : rmBaseCmd ≠ sdkmanagerEmulatorCmd := by decide

theorem ne_rmB_sys (api2 : Nat) (t2 : String) (a2 : String) : rmBaseCmd ≠ sdkmanagerSysImgCmd api2 t2 a2 := by
  simp [rmBaseCmd, androidTmpPath, sdkmanagerSysImgCmd, String.append_assoc]
  exact ne_append_left _ (by decide)

theorem ne_rmB_ndk (v2 : String) : rmBaseCmd ≠ sdkmanagerNdkCmd v2 := by
  simp [rmBaseCmd, androidTmpPath, sdkmanagerNdkCmd, String.append_assoc]
  exact ne_append_left _ (by decide)

theorem ne_rmB_cmake (v2 : String) : rmBaseCmd ≠ sdkmanagerCmakeCmd v2 := by
  simp [rmBaseCmd, androidTmpPath, sdkmanagerCmakeCmd, String.append_assoc]
  exact ne_append_left _ (by decide)

theorem ne_mkdir_touch (p : String) (p2 : String) : mkdirCmd p ≠ touchRepositoriesCmd p2 := by
  simp [mkdirCmd, touchRepositoriesCmd, String.append_assoc]
  exact append_ne_append _ _ (by decide) (by decide)

theorem ne_mkdir_yes (p : String) (p2 : String) : mkdirCmd p ≠ yesLicensesCmd p2 := by
  simp [mkdirCmd, yesLicensesCmd, String.append_assoc]
  exact append_ne_append _ _ (by decide) (by decide)

theorem ne_mkdir_chown (p : String) (p2 : String) : mkdirCmd p ≠ chownCmd p2 := by
  simp [mkdirCmd, chownCmd, String.append_assoc]
  exact append_ne_append _ _ (by decide) (by decide)

theorem ne_mkdir_curlC (p : String) (u2 : String) : mkdirCmd p ≠ curlCmdlineCmd u2 := by
  simp [mkdirCmd, curlCmdlineCmd, String.append_assoc]
  exact append_ne_append _ _ (by decide) (by decide)

theorem ne_mkdir_unzipC (p : String) (x2 : String) : mkdirCmd p ≠ unzipCmdlineCmd x2 := by
  simp [mkdirCmd, unzipCmdlineCmd, String.append_assoc]
  exact append_ne_append _ _ (by decide) (by decide)

theorem ne_mkdir_sdkB (p : String) (api2 : Nat) : mkdirCmd p ≠ sdkmanagerBaseCmd api2 := by
  simp [mkdirCmd, sdkmanagerBaseCmd, BUILD_TOOLS_VERSION, String.append_assoc]
  exact append_ne_append _ _ (by decide) (by decide)

theorem ne_mkdir_curlE (p : String) (pl2 : String) (b2 : String) : mkdirCmd p ≠ curlEmulatorCmd pl2 b2 := by
  simp [mkdirCmd, curlEmulatorCmd, String.append_assoc]
  exact append_ne_append _ _ (by decide) (by decide)

theorem ne_mkdir_unzipE (p : String) (x2 : String) : mkdirCmd p ≠ unzipEmulatorCmd x2 := by
  simp [mkdirCmd, unzipEmulatorCmd, String.append_assoc]
  exact append_ne_append _ _ (by decide) (by decide)

theorem ne_mkdir_sdkE (p : String) : mkdirCmd p ≠ sdkmanagerEmulatorCmd := by
  simp [mkdirCmd, sdkmanagerEmulatorCmd, String.append_assoc]
  exact append_ne_left _ (by decide)

theorem ne_mkdir_sys (p : String) (api2 : Nat) (t2 : String) (a2 : String) : mkdirCmd p ≠ sdkmanagerSysImgCmd api2 t2 a2 := by
  simp [mkdirCmd, sdkmanagerSysImgCmd, String.append_assoc]
  exact append_ne_append _ _ (by decide) (by decide)

theorem ne_mkdir_ndk (p : String) (v2 : String) : mkdirCmd p ≠ sdkmanagerNdkCmd v2 := by
  simp [mkdirCmd, sdkmanagerNdkCmd, String.append_assoc]
  exact append_ne_append _ _ (by decide) (by decide)

theorem ne_mkdir_cmake (p : String) (v2 : String) : mkdirCmd p ≠ sdkmanagerCmakeCmd v2 := by
  simp [mkdirCmd, sdkmanagerCmakeCmd, String.append_assoc]
  exact append_ne_append _ _ (by decide) (by decide)

theorem ne_touch_yes (p : String) (p2 : String) : touchRepositoriesCmd p ≠ yesLicensesCmd p2 := by
  simp [touchRepositoriesCmd, yesLicensesCmd, String.append_assoc]
  exact append_ne_append _ _ (by decide) (by decide)

theorem ne_touch_chown (p : String) (p2 : String) : touchRepositoriesCmd p ≠ chownCmd p2 := by
  simp [touchRepositoriesCmd, chownCmd, String.append_assoc]
  exact append_ne_append _ _ (by decide) (by decide)

theorem ne_touch_curlC (p : String) (u2 : String) : touchRepositoriesCmd p ≠ curlCmdlineCmd u2 := by
  simp [touchRepositoriesCmd, curlCmdlineCmd, String.append_assoc]
  exact append_ne_append _ _ (by decide) (by decide)

theorem ne_touch_unzipC (p : String) (x2 : String) : touchRepositoriesCmd p ≠ unzipCmdlineCmd x2 := by
  simp [touchRepositoriesCmd, unzipCmdlineCmd, String.append_assoc]
  exact append_ne_append _ _ (by decide) (by decide)

theorem ne_touch_sdkB (p : String) (api2 : Nat) : touchRepositoriesCmd p ≠ sdkmanagerBaseCmd api2 := by
  simp [touchRepositoriesCmd, sdkmanagerBaseCmd, BUILD_TOOLS_VERSION, String.append_assoc]
  exact append_ne_append _ _ (by decide) (by decide)

theorem ne_touch_curlE (p : String) (pl2 : String) (b2 : String) : touchRepositoriesCmd p ≠ curlEmulatorCmd pl2 b2 := by
  simp [touchRepositoriesCmd, curlEmulatorCmd, String.append_assoc]
  exact append_ne_append _ _ (by decide) (by decide)

theorem ne_touch_unzipE (p : String) (x2 : String) : touchRepositoriesCmd p ≠ unzipEmulatorCmd x2 := by
  simp [touchRepositoriesCmd, unzipEmulatorCmd, String.append_assoc]
  exact append_ne_append _ _ (by decide) (by decide)

theorem ne_touch_sdkE (p : String) : touchRepositoriesCmd p ≠ sdkmanagerEmulatorCmd := by
  simp [touchRepositoriesCmd, sdkmanagerEmulatorCmd, String.append_assoc]
  exact append_ne_left _ (by decide)

theorem ne_touch_sys (p : String) (api2 : Nat) (t2 : String) (a2 : String) : touchRepositoriesCmd p ≠ sdkmanagerSysImgCmd api2 t2 a2 := by
  simp [touchRepositoriesCmd, sdkmanagerSysImgCmd, String.append_assoc]
  exact append_ne_append _ _ (by decide) (by decide)

theorem ne_touch_ndk (p : String) (v2 : String) : touchRepositoriesCmd p ≠ sdkmanagerNdkCmd v2 := by
  simp [touchRepositoriesCmd, sdkmanagerNdkCmd, String.append_assoc]
  exact append_ne_append _ _ (by decide) (by decide)

theorem ne_touch_cmake (p : String) (v2 : String) : touchRepositoriesCmd p ≠ sdkmanagerCmakeCmd v2 := by
  simp [touchRepositoriesCmd, sdkmanagerCmakeCmd, String.append_assoc]
  exact append_ne_append _ _ (by decide) (by decide)

theorem ne_yes_chown (p : String) (p2 : String) : yesLicensesCmd p ≠ chownCmd p2 := by
  simp [yesLicensesCmd, chownCmd, String.append_assoc]
  exact append_ne_append _ _ (by decide) (by decide)

theorem ne_yes_curlC (p : String) (u2 : String) : yesLicensesCmd p ≠ curlCmdlineCmd u2 := by
  simp [yesLicensesCmd, curlCmdlineCmd, String.append_assoc]
  exact append_ne_append _ _ (by decide) (by decide)

theorem ne_yes_unzipC (p : String) (x2 : String) : yesLicensesCmd p ≠ unzipCmdlineCmd x2 := by
  simp [yesLicensesCmd, unzipCmdlineCmd, String.append_assoc]
  exact append_ne_append _ _ (by decide) (by decide)

theorem ne_yes_sdkB (p : String) (api2 : Nat) : yesLicensesCmd p ≠ sdkmanagerBaseCmd api2 := by
  simp [yesLicensesCmd, sdkmanagerBaseCmd, BUILD_TOOLS_VERSION, String.append_assoc]
  exact append_ne_append _ _ (by decide) (by decide)

theorem ne_yes_curlE (p : String) (pl2 : String) (b2 : String) : yesLicensesCmd p ≠ curlEmulatorCmd pl2 b2 := by
  simp [yesLicensesCmd, curlEmulatorCmd, String.append_assoc]
  exact append_ne_append _ _ (by decide) (by decide)

theorem ne_yes_unzipE (p : String) (x2 : String) : yesLicensesCmd p ≠ unzipEmulatorCmd x2 := by
  simp [yesLicensesCmd, unzipEmulatorCmd, String.append_assoc]
  exact append_ne_append _ _ (by decide) (by decide)

theorem ne_yes_sdkE (p : String) : yesLicensesCmd p ≠ sdkmanagerEmulatorCmd := by
  simp [yesLicensesCmd, sdkmanagerEmulatorCmd, String.append_assoc]
  exact append_ne_left _ (by decide)

theorem ne_yes_sys (p : String) (api2 : Nat) (t2 : String) (a2 : String) : yesLicensesCmd p ≠ sdkmanagerSysImgCmd api2 t2 a2 := by
  simp [yesLicensesCmd, sdkmanagerSysImgCmd, String.append_assoc]
  exact append_ne_append _ _ (by decide) (by decide)

theorem ne_yes_ndk (p : String) (v2 : String) : yesLicensesCmd p ≠ sdkmanagerNdkCmd v2 := by
  simp [yesLicensesCmd, sdkmanagerNdkCmd, String.append_assoc]
  exact append_ne_append _ _ (by decide) (by decide)

theorem ne_yes_cmake (p : String) (v2 : String) : yesLicensesCmd p ≠ sdkmanagerCmakeCmd v2 := by
  simp [yesLicensesCmd, sdkmanagerCmakeCmd, String.append_assoc]
  exact append_ne_append _ _ (by decide) (by decide)

theorem ne_chown_curlC (p : String) (u2 : String) : chownCmd p ≠ curlCmdlineCmd u2 := by
  simp [chownCmd, curlCmdlineCmd, String.append_assoc]
  exact append_ne_append _ _ (by decide) (by decide)

theorem ne_chown_unzipC (p : String) (x2 : String) : chownCmd p ≠ unzipCmdlineCmd x2 := by
  simp [chownCmd, unzipCmdlineCmd, String.append_assoc]
  exact append_ne_append _ _ (by decide) (by decide)

theorem ne_chown_sdkB (p : String) (api2 : Nat) : chownCmd p ≠ sdkmanagerBaseCmd api2 := by
  simp [chownCmd, sdkmanagerBaseCmd, BUILD_TOOLS_VERSION, String.append_assoc]
  exact append_ne_append _ _ (by decide) (by decide)

theorem ne_chown_curlE (p : String) (pl2 : String) (b2 : String) : chownCmd p ≠ curlEmulatorCmd pl2 b2 := by
  simp [chownCmd, curlEmulatorCmd, String.append_assoc]
  exact append_ne_append _ _ (by decide) (by decide)

theorem ne_chown_unzipE (p : String) (x2 : String) : chownCmd p ≠ unzipEmulatorCmd x2 := by
  simp [chownCmd, unzipEmulatorCmd, String.append_assoc]
  exact append_ne_append _ _ (by decide) (by decide)

theorem ne_chown_sdkE (p : String) : chownCmd p ≠ sdkmanagerEmulatorCmd := by
  simp [chownCmd, sdkmanagerEmulatorCmd, String.append_assoc]
  exact append_ne_left _ (by decide)

theorem ne_chown_sys (p : String) (api2 : Nat) (t2 : String) (a2 : String) : chownCmd p ≠ sdkmanagerSysImgCmd api2 t2 a2 := by
  simp [chownCmd, sdkmanagerSysImgCmd, String.append_assoc]
  exact append_ne_append _ _ (by decide) (by decide)

theorem ne_chown_ndk (p : String) (v2 : String) : chownCmd p ≠ sdkmanagerNdkCmd v2 := by
  simp [chownCmd, sdkmanagerNdkCmd, String.append_assoc]
  exact append_ne_append _ _ (by decide) (by decide)

theorem ne_chown_cmake (p : String) (v2 : String) : chownCmd p ≠ sdkmanagerCmakeCmd v2 := by
  simp [chownCmd, sdkmanagerCmakeCmd, String.append_assoc]
  exact append_ne_append _ _ (by decide) (by decide)

theorem ne_curlC_unzipC (u : String) (x2 : String) : curlCmdlineCmd u ≠ unzipCmdlineCmd x2 := by
  simp [curlCmdlineCmd, unzipCmdlineCmd, String.append_assoc]
  exact append_ne_append _ _ (by decide) (by decide)

theorem ne_curlC_sdkB (u : String) (api2 : Nat) : curlCmdlineCmd u ≠ sdkmanagerBaseCmd api2 := by
  simp [curlCmdlineCmd, sdkmanagerBaseCmd, BUILD_TOOLS_VERSION, String.append_assoc]
  exact append_ne_append _ _ (by decide) (by decide)

theorem ne_curlC_curlE (u : String) (pl2 : String) (b2 : String) : curlCmdlineCmd u ≠ curlEmulatorCmd pl2 b2 := by
  simp [curlCmdlineCmd, curlEmulatorCmd, String.append_assoc]
  exact append_ne_append _ _ (by decide) (by decide)

theorem ne_curlC_unzipE (u : String) (x2 : String) : curlCmdlineCmd u ≠ unzipEmulatorCmd x2 := by
  simp [curlCmdlineCmd, unzipEmulatorCmd, String.append_assoc]
  exact append_ne_append _ _ (by decide) (by decide)

theorem ne_curlC_sdkE (u : String) : curlCmdlineCmd u ≠ sdkmanagerEmulatorCmd := by
  simp [curlCmdlineCmd, sdkmanagerEmulatorCmd, String.append_assoc]
  exact append_ne_left _ (by decide)

theorem ne_curlC_sys (u : String) (api2 : Nat) (t2 : String) (a2 : String) : curlCmdlineCmd u ≠ sdkmanagerSysImgCmd api2 t2 a2 := by
  simp [curlCmdlineCmd, sdkmanagerSysImgCmd, String.append_assoc]
  exact append_ne_append _ _ (by decide) (by decide)

theorem ne_curlC_ndk (u : String) (v2 : String) : curlCmdlineCmd u ≠ sdkmanagerNdkCmd v2 := by
  simp [curlCmdlineCmd, sdkmanagerNdkCmd, String.append_assoc]
  exact append_ne_append _ _ (by decide) (by decide)

theorem ne_curlC_cmake (u : String) (v2 : String) : curlCmdlineCmd u ≠ sdkmanagerCmakeCmd v2 := by
  simp [curlCmdlineCmd, sdkmanagerCmakeCmd, String.append_assoc]
  exact append_ne_append _ _ (by decide) (by decide)

theorem ne_unzipC_sdkB (x : String) (api2 : Nat) : unzipCmdlineCmd x ≠ sdkmanagerBaseCmd api2 := by
  simp [unzipCmdlineCmd, sdkmanagerBaseCmd, BUILD_TOOLS_VERSION, String.append_assoc]
  exact append_ne_append _ _ (by decide) (by decide)

theorem ne_unzipC_curlE (x : String) (pl2 : String) (b2 : String) : unzipCmdlineCmd x ≠ curlEmulatorCmd pl2 b2 := by
  simp [unzipCmdlineCmd, curlEmulatorCmd, String.append_assoc]
  exact append_ne_append _ _ (by decide) (by decide)

theorem ne_unzipC_unzipE (x : String) (x2 : String) : unzipCmdlineCmd x ≠ unzipEmulatorCmd x2 := by
  simp [unzipCmdlineCmd, unzipEmulatorCmd, String.append_assoc]
  exact append_ne_append _ _ (by decide) (by decide)

theorem ne_unzipC_sdkE (x : String) : unzipCmdlineCmd x ≠ sdkmanagerEmulatorCmd := by
  simp [unzipCmdlineCmd, sdkmanagerEmulatorCmd, String.append_assoc]
  exact append_ne_left _ (by decide)

theorem ne_unzipC_sys (x : String) (api2 : Nat) (t2 : String) (a2 : String) : unzipCmdlineCmd x ≠ sdkmanagerSysImgCmd api2 t2 a2 := by
  simp [unzipCmdlineCmd, sdkmanagerSysImgCmd, String.append_assoc]
  exact append_ne_append _ _ (by decide) (by decide)

theorem ne_unzipC_ndk (x : String) (v2 : String) : unzipCmdlineCmd x ≠ sdkmanagerNdkCmd v2 := by
  simp [unzipCmdlineCmd, sdkmanagerNdkCmd, String.append_assoc]
  exact append_ne_append _ _ (by decide) (by decide)

theorem ne_unzipC_cmake (x : String) (v2 : String) : unzipCmdlineCmd x ≠ sdkmanagerCmakeCmd v2 := by
  simp [unzipCmdlineCmd, sdkmanagerCmakeCmd, String.append_assoc]
  exact append_ne_append _ _ (by decide) (by decide)

theorem ne_sdkB_curlE (api : Nat) (pl2 : String) (b2 : String) : sdkmanagerBaseCmd api ≠ curlEmulatorCmd pl2 b2 := by
  simp [sdkmanagerBaseCmd, BUILD_TOOLS_VERSION, curlEmulatorCmd, String.append_assoc]
  exact append_ne_append _ _ (by decide) (by decide)

theorem ne_sdkB_unzipE (api : Nat) (x2 : String) : sdkmanagerBaseCmd api ≠ unzipEmulatorCmd x2 := by
  simp [sdkmanagerBaseCmd, BUILD_TOOLS_VERSION, unzipEmulatorCmd, String.append_assoc]
  exact append_ne_append _ _ (by decide) (by decide)

theorem ne_sdkB_sdkE (api : Nat) : sdkmanagerBaseCmd api ≠ sdkmanagerEmulatorCmd := by
  simp [sdkmanagerBaseCmd, BUILD_TOOLS_VERSION, sdkmanagerEmulatorCmd, String.append_assoc]
  exact append_ne_left _ (by decide)

theorem ne_sdkB_sys (api : Nat) (api2 : Nat) (t2 : String) (a2 : String) : sdkmanagerBaseCmd api ≠ sdkmanagerSysImgCmd api2 t2 a2 := by
  simp [sdkmanagerBaseCmd, BUILD_TOOLS_VERSION, sdkmanagerSysImgCmd, String.append_assoc]
  exact append_ne_append _ _ (by decide) (by decide)

theorem ne_sdkB_ndk (api : Nat) (v2 : String) : sdkmanagerBaseCmd api ≠ sdkmanagerNdkCmd v2 := by
  simp [sdkmanagerBaseCmd, BUILD_TOOLS_VERSION, sdkmanagerNdkCmd, String.append_assoc]
  exact append_ne_append _ _ (by decide) (by decide)

theorem ne_sdkB_cmake (api : Nat) (v2 : String) : sdkmanagerBaseCmd api ≠ sdkmanagerCmakeCmd v2 := by
  simp [sdkmanagerBaseCmd, BUILD_TOOLS_VERSION, sdkmanagerCmakeCmd, String.append_assoc]
  exact append_ne_append _ _ (by decide) (by decide)

theorem ne_curlE_unzipE (pl : String) (b : String) (x2 : String) : curlEmulatorCmd pl b ≠ unzipEmulatorCmd x2 := by
  simp [curlEmulatorCmd, unzipEmulatorCmd, String.append_assoc]
  exact append_ne_append _ _ (by decide) (by decide)

theorem ne_curlE_sdkE (pl : String) (b : String) : curlEmulatorCmd pl b ≠ sdkmanagerEmulatorCmd := by
  simp [curlEmulatorCmd, sdkmanagerEmulatorCmd, String.append_assoc]
  exact append_ne_left _ (by decide)

theorem ne_curlE_sys (pl : String) (b : String) (api2 : Nat) (t2 : String) (a2 : String) : curlEmulatorCmd pl b ≠ sdkmanagerSysImgCmd api2 t2 a2 := by
  simp [curlEmulatorCmd, sdkmanagerSysImgCmd, String.append_assoc]
  exact append_ne_append _ _ (by decide) (by decide)

theorem ne_curlE_ndk (pl : String) (b : String) (v2 : String) : curlEmulatorCmd pl b ≠ sdkmanagerNdkCmd v2 := by
  simp [curlEmulatorCmd, sdkmanagerNdkCmd, String.append_assoc]
  exact append_ne_append _ _ (by decide) (by decide)

theorem ne_curlE_cmake (pl : String) (b : String) (v2 : String) : curlEmulatorCmd pl b ≠ sdkmanagerCmakeCmd v2 := by
  simp [curlEmulatorCmd, sdkmanagerCmakeCmd, String.append_assoc]
  exact append_ne_append _ _ (by decide) (by decide)

theorem ne_unzipE_sdkE (x : String) : unzipEmulatorCmd x ≠ sdkmanagerEmulatorCmd := by
  simp [unzipEmulatorCmd, sdkmanagerEmulatorCmd, String.append_assoc]
  exact append_ne_left _ (by decide)

theorem ne_unzipE_sys (x : String) (api2 : Nat) (t2 : String) (a2 : String) : unzipEmulatorCmd x ≠ sdkmanagerSysImgCmd api2 t2 a2 := by
  simp [unzipEmulatorCmd, sdkmanagerSysImgCmd, String.append_assoc]
  exact append_ne_append _ _ (by decide) (by decide)

theorem ne_unzipE_ndk (x : String) (v2 : String) : unzipEmulatorCmd x ≠ sdkmanagerNdkCmd v2 := by
  simp [unzipEmulatorCmd, sdkmanagerNdkCmd, String.append_assoc]
  exact append_ne_append _ _ (by decide) (by decide)

theorem ne_unzipE_cmake (x : String) (v2 : String) : unzipEmulatorCmd x ≠ sdkmanagerCmakeCmd v2 := by
  simp [unzipEmulatorCmd, sdkmanagerCmakeCmd, String.append_assoc]
  exact append_ne_append _ _ (by decide) (by decide)

theorem ne_sdkE_sys (api2 : Nat) (t2 : String) (a2 : String) : sdkmanagerEmulatorCmd ≠ sdkmanagerSysImgCmd api2 t2 a2 := by
  simp [sdkmanagerEmulatorCmd, sdkmanagerSysImgCmd, String.append_assoc]
  exact ne_append_left _ (by decide)

theorem ne_sdkE_ndk (v2 : String) : sdkmanagerEmulatorCmd ≠ sdkmanagerNdkCmd v2 := by
  simp [sdkmanagerEmulatorCmd, sdkmanagerNdkCmd, String.append_assoc]
  exact ne_append_left _ (by decide)

theorem ne_sdkE_cmake (v2 : String) : sdkmanagerEmulatorCmd ≠ sdkmanagerCmakeCmd v2 := by
  simp [sdkmanagerEmulatorCmd, sdkmanagerCmakeCmd, String.append_assoc]
  exact ne_append_left _ (by decide)

theorem ne_sys_ndk (api : Nat) (t : String) (a : String) (v2 : String) : sdkmanagerSysImgCmd api t a ≠ sdkmanagerNdkCmd v2 := by
  simp [sdkmanagerSysImgCmd, sdkmanagerNdkCmd, String.append_assoc]
  exact append_ne_append _ _ (by decide) (by decide)

theorem ne_sys_cmake (api : Nat) (t : String) (a : String) (v2 : String) : sdkmanagerSysImgCmd api t a ≠ sdkmanagerCmakeCmd v2 := by
  simp [sdkmanagerSysImgCmd, sdkmanagerCmakeCmd, String.append_assoc]
  exact append_ne_append _ _ (by decide) (by decide)

theorem ne_ndk_cmake (v : String) (v2 : String) : sdkmanagerNdkCmd v ≠ sdkmanagerCmakeCmd v2 := by
  simp [sdkmanagerNdkCmd, sdkmanagerCmakeCmd, String.append_assoc]
  exact append_ne_append _ _ (by decide) (by decide)

theorem ne_urls_curlB : curlBaseCmd BASE_ANDROID_SDK_URL_LINUX ≠ curlBaseCmd BASE_ANDROID_SDK_URL_MAC := by decide

theorem ne_urls_curlC : curlCmdlineCmd CMDLINE_TOOLS_URL_LINUX ≠ curlCmdlineCmd CMDLINE_TOOLS_URL_MAC := by decide

/-! ## Filesystem membership lemmas -/

theorem existsSync_addFsPath_iff {fs : List String} {p q : String} :
    existsSync (addFsPath fs p) q = true ↔ (q = p ∨ existsSync fs q = true) := by
  unfold addFsPath
  by_cases h : fs.contains p = true
  · have hp : p ∈ fs := existsSync_iff.mp h
    simp only [h, if_true, existsSync_iff]
    constructor
    · exact Or.inr
    · rintro (rfl | hq)
      · exact hp
      · exact hq
  · have hp : ¬ p ∈ fs := fun hm => h (existsSync_iff.mpr hm)
    simp [existsSync_iff, hp, List.mem_cons]

theorem existsSync_removeFsTree_iff {fs : List String} {p q : String} :
    existsSync (removeFsTree fs p) q = true ↔
      (existsSync fs q = true ∧ isPathOrUnder q p = false) := by
  unfold removeFsTree
  simp [existsSync_iff, List.mem_filter]

/-! ## Environment facts of the embedded functions -/

theorem acceptLicenses_env (s : St) : (acceptLicenses s).1.env = s.env := rfl

theorem installBaseSdk_env_androidHome (s : St) :
    (installBaseSdk s).1.env.androidHome = s.env.androidHome := by
  simp only [installBaseSdk]
  split <;> rfl

theorem installBaseSdk_env_androidSdkHome (s : St) :
    (installBaseSdk s).1.env.androidSdkHome = some (jsStr s.env.androidHome ++ "/sdk_home") := by
  simp only [installBaseSdk]
  split <;> rfl

theorem installBaseSdk_env_platform (s : St) :
    (installBaseSdk s).1.env.platform = s.env.platform := by
  simp only [installBaseSdk]
  split <;> rfl

theorem installBaseSdk_env_fresh (s : St) :
    (installBaseSdk s).1.env.freshSdkInstallation = s.env.freshSdkInstallation := by
  simp only [installBaseSdk]
  split <;> rfl

/-! ## Full effect inventories -/

theorem installBaseSdk_effects_mem (s : St) (e : Effect)
    (he : e ∈ (installBaseSdk s).2.1) :
    e ∈ [Effect.log ("Installing Android SDK on " ++ jsStr s.env.androidHome),
         Effect.exportVariable "ANDROID_SDK_HOME" (jsStr s.env.androidHome ++ "/sdk_home"),
         Effect.execCmd (mvBackupCmd (jsStr s.env.androidHome ++ "/sdk_home") s.env.now),
         Effect.execCmd (curlBaseCmd (if s.env.platform == "darwin" then BASE_ANDROID_SDK_URL_MAC
           else BASE_ANDROID_SDK_URL_LINUX)),
         Effect.execCmd (unzipBaseCmd (jsStr s.env.androidHome)),
         Effect.execCmd rmBaseCmd,
         Effect.execCmd (mkdirCmd (jsStr s.env.androidHome ++ "/sdk_home")),
         Effect.exportVariable "PATH" (extraPaths (jsStr s.env.androidHome) ++ ":" ++
           pathWithoutAndroid (jsOr s.env.pathVar))] := by
  simp only [installBaseSdk] at he
  by_cases h : existsSync s.fs (jsStr s.env.androidHome ++ "/sdk_home") = true <;>
    simp [h] at he <;>
    simp [List.mem_cons] <;> tauto

theorem acceptLicenses_effects_mem (s : St) (e : Effect)
    (he : e ∈ (acceptLicenses s).2.1) :
    e ∈ [Effect.log ("Accepting Android SDK licenses on " ++ jsStr s.env.androidHome),
         Effect.execCmd (mkdirCmd (jsStr s.env.androidSdkHome)),
         Effect.execCmd (touchRepositoriesCmd (jsStr s.env.androidSdkHome)),
         Effect.execCmd (mkdirCmd (jsStr s.env.androidHome ++ "/licenses")),
         Effect.execCmd (yesLicensesCmd (jsStr s.env.androidHome))] := by
  simpa [acceptLicenses] using he

theorem licenseSteps_no_exec (b : Bool) (api : Nat) (ah : String) (s : St) (c : String) :
    Effect.execCmd c ∉ (licenseSteps b api ah s).2.1 := by
  intro h
  rcases licenseSteps_effects_mem b api ah s _ h with h2 | h2 <;> simp at h2

theorem licenseSteps_no_addPath (b : Bool) (api : Nat) (ah : String) (s : St) (x : String) :
    Effect.addPath x ∉ (licenseSteps b api ah s).2.1 := by
  intro h
  rcases licenseSteps_effects_mem b api ah s _ h with h2 | h2 <;> simp at h2

theorem licenseSteps_no_export (b : Bool) (api : Nat) (ah : String) (s : St) (x y : String) :
    Effect.exportVariable x y ∉ (licenseSteps b api ah s).2.1 := by
  intro h
  rcases licenseSteps_effects_mem b api ah s _ h with h2 | h2 <;> simp at h2

/-! ## Exec-command shape inventories -/

theorem cmdlineStep_exec_shapes (b : Bool) (ah : String) (s : St) (c : String)
    (hc : Effect.execCmd c ∈ (cmdlineStep b ah s).2) :
    c = curlCmdlineCmd (if b then CMDLINE_TOOLS_URL_MAC else CMDLINE_TOOLS_URL_LINUX) ∨
    c = unzipCmdlineCmd (ah ++ "/cmdline-tools") := by
  have h := cmdlineStep_effects_mem b ah s _ hc
  simp at h
  tauto

theorem packagesTail_exec_shapes (b : Bool) (api : Nat) (t a : String)
    (eb ndk cmk : Option String) (ah : String) (s : St) (c : String)
    (hc : Effect.execCmd c ∈ (packagesTail b api t a eb ndk cmk ah s).2) :
    c = sdkmanagerBaseCmd api ∨
    c = curlEmulatorCmd (if b then "darwin" else "linux") (jsStr eb) ∨
    c = unzipEmulatorCmd ah ∨
    c = sdkmanagerEmulatorCmd ∨
    c = sdkmanagerSysImgCmd api t a ∨
    c = sdkmanagerNdkCmd (jsStr ndk) ∨
    c = sdkmanagerCmakeCmd (jsStr cmk) := by
  have h := packagesTail_effects_mem b api t a eb ndk cmk ah s _ hc
  simp at h
  tauto

theorem installBaseSdk_exec_shapes (s : St) (c : String)
    (hc : Effect.execCmd c ∈ (installBaseSdk s).2.1) :
    c = mvBackupCmd (jsStr s.env.androidHome ++ "/sdk_home") s.env.now ∨
    c = curlBaseCmd (if s.env.platform == "darwin" then BASE_ANDROID_SDK_URL_MAC
      else BASE_ANDROID_SDK_URL_LINUX) ∨
    c = unzipBaseCmd (jsStr s.env.androidHome) ∨
    c = rmBaseCmd ∨
    c = mkdirCmd (jsStr s.env.androidHome ++ "/sdk_home") := by
  have h := installBaseSdk_effects_mem s _ hc
  simp at h
  simp only [beq_iff_eq]
  tauto

theorem acceptLicenses_exec_shapes (s : St) (c : String)
    (hc : Effect.execCmd c ∈ (acceptLicenses s).2.1) :
    c = mkdirCmd (jsStr s.env.androidSdkHome) ∨
    c = touchRepositoriesCmd (jsStr s.env.androidSdkHome) ∨
    c = mkdirCmd (jsStr s.env.androidHome ++ "/licenses") ∨
    c = yesLicensesCmd (jsStr s.env.androidHome) := by
  have h := acceptLicenses_effects_mem s _ hc
  simp at h
  tauto

/-! ## Positive occurrence lemmas -/

theorem installBaseSdk_curl_mem (s : St) :
    Effect.execCmd (curlBaseCmd (if s.env.platform == "darwin" then BASE_ANDROID_SDK_URL_MAC
      else BASE_ANDROID_SDK_URL_LINUX)) ∈ (installBaseSdk s).2.1 := by
  simp only [installBaseSdk]
  split <;> simp

theorem cmdlineStep_curl_mem (b : Bool) (ah : String) (s : St)
    (h : existsSync s.fs (ah ++ "/cmdline-tools") = false) :
    Effect.execCmd (curlCmdlineCmd (if b then CMDLINE_TOOLS_URL_MAC else CMDLINE_TOOLS_URL_LINUX)) ∈
      (cmdlineStep b ah s).2 := by
  unfold cmdlineStep
  simp [h]

/-! ## State preservation lemmas -/

theorem installBaseSdk_preserves_absent (s : St) (q : String)
    (h0 : existsSync s.fs q = false)
    (hb : q ≠ jsStr s.env.androidHome ++ "/sdk_home" ++ ".backup." ++ toString s.env.now)
    (ht : q ≠ androidTmpPath)
    (ha : q ≠ jsStr s.env.androidHome)
    (hs : q ≠ jsStr s.env.androidHome ++ "/sdk_home") :
    existsSync (installBaseSdk s).1.fs q = false := by
  simp only [installBaseSdk]
  rw [Bool.eq_false_iff]
  by_cases h : existsSync s.fs (jsStr s.env.androidHome ++ "/sdk_home") = true <;>
    simp [h, existsSync_addFsPath_iff, existsSync_removeFsTree_iff, h0, hb, ht, ha, hs]

theorem acceptLicenses_preserves_absent (s : St) (q : String)
    (h0 : existsSync s.fs q = false)
    (h1 : q ≠ jsStr s.env.androidSdkHome)
    (h2 : q ≠ jsStr s.env.androidSdkHome ++ "/repositories.cfg")
    (h3 : q ≠ jsStr s.env.androidHome ++ "/licenses") :
    existsSync (acceptLicenses s).1.fs q = false := by
  rw [Bool.eq_false_iff]
  simp [acceptLicenses, existsSync_addFsPath_iff, h0, h1, h2, h3]

theorem cmdlineStep_preserves_absent (b : Bool) (ah : String) (s : St) (q : String)
    (h0 : existsSync s.fs q = false)
    (h1 : q ≠ ah ++ "/cmdline-tools")
    (h2 : q ≠ "commandlinetools.zip") :
    existsSync (cmdlineStep b ah s).1.fs q = false := by
  unfold cmdlineStep
  rw [Bool.eq_false_iff]
  by_cases h : existsSync s.fs (ah ++ "/cmdline-tools") = false <;>
    simp [h, existsSync_addFsPath_iff, existsSync_removeFsTree_iff, h0, h1, h2]

theorem cmdlineStep_preserves_present (b : Bool) (ah : String) (s : St) (q : String)
    (h0 : existsSync s.fs q = true)
    (h2 : isPathOrUnder q "commandlinetools.zip" = false) :
    existsSync (cmdlineStep b ah s).1.fs q = true := by
  unfold cmdlineStep
  by_cases h : existsSync s.fs (ah ++ "/cmdline-tools") = false <;>
    simp [h, existsSync_addFsPath_iff, existsSync_removeFsTree_iff, h0, h2]

/-! ## License write characterizations -/

theorem parentDir_preview (ah : String) :
    parentDir (ah ++ "/licenses/android-sdk-preview-license") = ah ++ "/licenses" := by
  have h : ah ++ "/licenses/android-sdk-preview-license" =
      (ah ++ "/licenses") ++ "/" ++ "android-sdk-preview-license" := by
    simp [String.append_assoc]
  rw [h, parentDir_concat _ _ (by decide)]

theorem parentDir_armdbt (ah : String) :
    parentDir (ah ++ "/licenses/android-sdk-arm-dbt-license") = ah ++ "/licenses" := by
  have h : ah ++ "/licenses/android-sdk-arm-dbt-license" =
      (ah ++ "/licenses") ++ "/" ++ "android-sdk-arm-dbt-license" := by
    simp [String.append_assoc]
  rw [h, parentDir_concat _ _ (by decide)]

theorem writeLicenseIfAbsent_write (c : Bool) (p hash : String) (s : St)
    (hc : c = true) (habs : existsSync s.fs p = false)
    (hdir : existsSync s.fs (parentDir p) = true) :
    writeLicenseIfAbsent c p hash s =
      ({ s with fs := addFsPath s.fs p }, [Effect.writeFileSync p hash], none) := by
  unfold writeLicenseIfAbsent writeFileSync
  simp [hc, habs, hdir]

theorem writeLicenseIfAbsent_skip_cond (c : Bool) (p hash : String) (s : St)
    (hc : c = false) :
    writeLicenseIfAbsent c p hash s = (s, [], none) := by
  unfold writeLicenseIfAbsent
  simp [hc]

theorem writeLicenseIfAbsent_skip_present (c : Bool) (p hash : String) (s : St)
    (h : existsSync s.fs p = true) :
    writeLicenseIfAbsent c p hash s = (s, [], none) := by
  unfold writeLicenseIfAbsent
  simp [h]

theorem writeLicenseIfAbsent_throw (c : Bool) (p hash : String) (s : St)
    (hc : c = true) (habs : existsSync s.fs p = false)
    (hdir : existsSync s.fs (parentDir p) = false) :
    writeLicenseIfAbsent c p hash s = (s, [], some p) := by
  unfold writeLicenseIfAbsent writeFileSync
  simp [hc, habs, hdir]

/-! ## Tail characterizations for the emulator choice -/

theorem packagesTail_no_eb (b : Bool) (api : Nat) (t a : String)
    (eb ndk cmk : Option String) (ah : String) (s : St)
    (h : truthy eb = false) :
    (packagesTail b api t a eb ndk cmk ah s).2 =
      [Effect.log "Installing latest build tools, platform tools, and platform.",
       Effect.execCmd (sdkmanagerBaseCmd api),
       Effect.log "Installing latest emulator.",
       Effect.execCmd sdkmanagerEmulatorCmd,
       Effect.log "Installing system images.",
       Effect.execCmd (sdkmanagerSysImgCmd api t a)] ++
      (if truthy ndk then [Effect.log ("Installing NDK " ++ jsStr ndk ++ "."),
        Effect.execCmd (sdkmanagerNdkCmd (jsStr ndk))] else []) ++
      (if truthy cmk then [Effect.log ("Installing CMake " ++ jsStr cmk ++ "."),
        Effect.execCmd (sdkmanagerCmakeCmd (jsStr cmk))] else []) := by
  unfold packagesTail
  simp [h]

theorem packagesTail_with_eb (b : Bool) (api : Nat) (t a : String)
    (eb ndk cmk : Option String) (ah : String) (s : St)
    (h : truthy eb = true) :
    (packagesTail b api t a eb ndk cmk ah s).2 =
      [Effect.log "Installing latest build tools, platform tools, and platform.",
       Effect.execCmd (sdkmanagerBaseCmd api),
       Effect.log ("Installing emulator build " ++ jsStr eb ++ "."),
       Effect.execCmd (curlEmulatorCmd (if b then "darwin" else "linux") (jsStr eb)),
       Effect.rmRF (ah ++ "/emulator"),
       Effect.execCmd (unzipEmulatorCmd ah),
       Effect.rmRF "emulator.zip",
       Effect.log "Installing system images.",
       Effect.execCmd (sdkmanagerSysImgCmd api t a)] ++
      (if truthy ndk then [Effect.log ("Installing NDK " ++ jsStr ndk ++ "."),
        Effect.execCmd (sdkmanagerNdkCmd (jsStr ndk))] else []) ++
      (if truthy cmk then [Effect.log ("Installing CMake " ++ jsStr cmk ++ "."),
        Effect.execCmd (sdkmanagerCmakeCmd (jsStr cmk))] else []) := by
  unfold packagesTail
  simp [h]

/-! ## Path relation lemmas -/

theorem ne_of_head_ne {a b : String} {c d : Char}
    (ha : a.data.head? = some c) (hb : b.data.head? = some d) (hne : c ≠ d) : a ≠ b := by
  intro he
  rw [he] at ha
  rw [ha] at hb
  simp at hb
  exact hne hb

theorem head?_data_append (a b : String) {c : Char} (h : a.data.head? = some c) :
    ((a ++ b).data).head? = some c := by
  rw [String.data_append]
  cases ha : a.data with
  | nil => rw [ha] at h; simp at h
  | cons x xs =>
    rw [ha] at h
    simp at h
    simp [h]

theorem isPathOrUnder_append_cancel (a x y : String) :
    isPathOrUnder (a ++ x) (a ++ y) = ((x == y) || List.isPrefixOf (y ++ "/").data x.data) := by
  unfold isPathOrUnder
  have h1 : ((a ++ x) == (a ++ y)) = (x == y) := by
    by_cases h : x = y
    · simp [h]
    · have h2 : a ++ x ≠ a ++ y := append_left_cancel_ne a h
      simp [h, h2]
  have h2 : List.isPrefixOf ((a ++ y) ++ "/").data (a ++ x).data =
      List.isPrefixOf (y ++ "/").data x.data := by
    rw [show ((a ++ y) ++ "/") = a ++ (y ++ "/") by simp [String.append_assoc]]
    rw [String.data_append, String.data_append]
    exact isPrefixOf_append_cancel a.data
  rw [h1, h2]

theorem isPathOrUnder_head_ne (q p : String) {c d : Char}
    (hq : q.data.head? = some c) (hp : p.data.head? = some d) (hne : c ≠ d) :
    isPathOrUnder q p = false := by
  unfold isPathOrUnder
  have h1 : (q == p) = false := by
    have : q ≠ p := ne_of_head_ne hq hp hne
    simp [this]
  have h2 : List.isPrefixOf (p ++ "/").data q.data = false :=
    isPrefixOf_eq_false_of_head (head?_data_append p "/" hp) hq (Ne.symm hne)
  rw [h1, h2]
  rfl

theorem isPathOrUnder_self_under (a x : String) (hx : x ≠ "") :
    isPathOrUnder a (a ++ x) = false := by
  unfold isPathOrUnder
  have h1 : (a == (a ++ x)) = false := by simp [ne_self_append a hx]
  have h2 : List.isPrefixOf ((a ++ x) ++ "/").data a.data = false := by
    apply isPrefixOf_eq_false_of_lt
    have hone : ("/" : String).data.length = 1 := rfl
    simp [String.data_append, List.length_append, hone]
  rw [h1, h2]
  rfl

/-! ## More state preservation -/

theorem writeLicenseIfAbsent_fs_pres (c : Bool) (p hash : String) (s : St) (q : String)
    (h : existsSync s.fs q = true) :
    existsSync (writeLicenseIfAbsent c p hash s).1.fs q = true := by
  unfold writeLicenseIfAbsent writeFileSync
  by_cases hc : (c && !(existsSync s.fs p)) = true <;>
    by_cases hd : existsSync s.fs (parentDir p) = true <;>
      simp [hc, hd, existsSync_addFsPath_iff, h]

theorem licenseSteps_preserves_present (b : Bool) (api : Nat) (ah : String) (s : St) (q : String)
    (h : existsSync s.fs q = true) :
    existsSync (licenseSteps b api ah s).1.fs q = true := by
  unfold licenseSteps
  rcases h1 : writeLicenseIfAbsent (!b) (ah ++ "/licenses/android-sdk-preview-license")
      previewLicenseHash s with ⟨s1, es1, o⟩
  have hs1 : existsSync s1.fs q = true := by
    have := writeLicenseIfAbsent_fs_pres (!b) (ah ++ "/licenses/android-sdk-preview-license")
      previewLicenseHash s q h
    rw [h1] at this
    exact this
  cases o
  · exact writeLicenseIfAbsent_fs_pres _ _ _ s1 q hs1
  · exact hs1

theorem packagesTail_fs_pres (b : Bool) (api : Nat) (t a : String)
    (eb ndk cmk : Option String) (ah : String) (s : St) (q : String)
    (h : existsSync s.fs q = true)
    (h1 : isPathOrUnder q (ah ++ "/emulator") = false)
    (h2 : isPathOrUnder q "emulator.zip" = false) :
    existsSync (packagesTail b api t a eb ndk cmk ah s).1.fs q = true := by
  unfold packagesTail
  by_cases he : truthy eb = true <;>
    simp [he, existsSync_addFsPath_iff, existsSync_removeFsTree_iff, h, h1, h2]

/-- Final state of the post-base pipeline. -/
theorem afterBase_st (api : Nat) (t a : String) (eb ndk cmk : Option String)
    (s0 : St) (p : St × List Effect) :
    (afterBase api t a eb ndk cmk s0 p).st =
      (match (licenseSteps (s0.env.platform == "darwin") api (jsStr s0.env.androidHome)
          (cmdlineStep (s0.env.platform == "darwin") (jsStr s0.env.androidHome)
            (chownStep (s0.env.platform == "darwin") (jsStr s0.env.androidHome) p.1).1).1).2.2 with
        | some _ =>
          (licenseSteps (s0.env.platform == "darwin") api (jsStr s0.env.androidHome)
            (cmdlineStep (s0.env.platform == "darwin") (jsStr s0.env.androidHome)
              (chownStep (s0.env.platform == "darwin") (jsStr s0.env.androidHome) p.1).1).1).1
        | none =>
          (packagesTail (s0.env.platform == "darwin") api t a eb ndk cmk (jsStr s0.env.androidHome)
            (licenseSteps (s0.env.platform == "darwin") api (jsStr s0.env.androidHome)
              (cmdlineStep (s0.env.platform == "darwin") (jsStr s0.env.androidHome)
                (chownStep (s0.env.platform == "darwin") (jsStr s0.env.androidHome) p.1).1).1).1).1) := by
  unfold afterBase
  rcases hL : licenseSteps (s0.env.platform == "darwin") api (jsStr s0.env.androidHome)
      (cmdlineStep (s0.env.platform == "darwin") (jsStr s0.env.androidHome)
        (chownStep (s0.env.platform == "darwin") (jsStr s0.env.androidHome) p.1).1).1
    with ⟨s4, es4, o⟩
  cases o <;> simp [hL]

/-- On a warm runner every external command issued belongs to the chown step
or the package-installation tail. -/
theorem warm_run_exec_shapes (api : Nat) (t a : String)
    (eb ndk cmk : Option String) (s : St) (ah : String)
    (hAH : s.env.androidHome = some ah) (hne : ah ≠ "")
    (hroot : existsSync s.fs ah = true)
    (htools : existsSync s.fs (ah ++ "/cmdline-tools") = true)
    (c : String)
    (hc : Effect.execCmd c ∈ (installAndroidSdk api t a eb ndk cmk s).effects) :
    c = chownCmd ah ∨
    c = sdkmanagerBaseCmd api ∨
    c = curlEmulatorCmd (if s.env.platform == "darwin" then "darwin" else "linux") (jsStr eb) ∨
    c = unzipEmulatorCmd ah ∨
    c = sdkmanagerEmulatorCmd ∨
    c = sdkmanagerSysImgCmd api t a ∨
    c = sdkmanagerNdkCmd (jsStr ndk) ∨
    c = sdkmanagerCmakeCmd (jsStr cmk) := by
  have hT : truthy s.env.androidHome = true := by simp [truthy, hAH, hne]
  have hjs : jsStr s.env.androidHome = ah := by simp [jsStr, hAH]
  rw [installAndroidSdk_eq api t a eb ndk cmk s hT, afterBase_effects, hjs,
    baseOkPair_warm s (by rw [hjs]; exact hroot)] at hc
  dsimp only at hc
  rw [chownStep_fst, cmdlineStep_skip _ _ _ htools] at hc
  dsimp only at hc
  simp only [List.mem_append] at hc
  rcases hc with (((h1 | h2) | h3) | h4) | h5
  · simp at h1
  · have h := chownStep_effects_mem _ _ _ _ h2
    simp at h
    exact Or.inl h
  · simp at h3
  · exact absurd h4 (licenseSteps_no_exec _ _ _ _ _)
  · rcases hO : (licenseSteps (s.env.platform == "darwin") api ah s).2.2 with _ | q
    · rw [hO] at h5
      have h := packagesTail_exec_shapes _ _ _ _ _ _ _ _ _ _ h5
      tauto
    · rw [hO] at h5
      simp at h5

/-! ## General run lemmas (any filesystem state) -/

theorem baseOkPair_env_fresh (s : St) :
    (baseOkPair s).1.env.freshSdkInstallation = s.env.freshSdkInstallation := by
  unfold baseOkPair
  split
  · rfl
  · rw [acceptLicenses_env, installBaseSdk_env_fresh]

set_option maxHeartbeats 1600000 in
/-- Every external command a run can issue, whatever the filesystem state;
the chown command comes with the exact condition under which it is issued. -/
theorem run_exec_shapes (api : Nat) (t a : String) (eb ndk cmk : Option String)
    (s : St) (ah : String) (hAH : s.env.androidHome = some ah) (hne : ah ≠ "")
    (c : String)
    (hc : Effect.execCmd c ∈ (installAndroidSdk api t a eb ndk cmk s).effects) :
    c = mvBackupCmd (ah ++ "/sdk_home") s.env.now ∨
    c = curlBaseCmd (if s.env.platform == "darwin" then BASE_ANDROID_SDK_URL_MAC
      else BASE_ANDROID_SDK_URL_LINUX) ∨
    c = unzipBaseCmd ah ∨
    c = rmBaseCmd ∨
    c = mkdirCmd (ah ++ "/sdk_home") ∨
    c = touchRepositoriesCmd (ah ++ "/sdk_home") ∨
    c = mkdirCmd (ah ++ "/licenses") ∨
    c = yesLicensesCmd ah ∨
    ((s.env.platform == "darwin") = false ∧ s.env.freshSdkInstallation = "" ∧ c = chownCmd ah) ∨
    c = curlCmdlineCmd (if s.env.platform == "darwin" then CMDLINE_TOOLS_URL_MAC
      else CMDLINE_TOOLS_URL_LINUX) ∨
    c = unzipCmdlineCmd (ah ++ "/cmdline-tools") ∨
    c = sdkmanagerBaseCmd api ∨
    c = curlEmulatorCmd (if s.env.platform == "darwin" then "darwin" else "linux") (jsStr eb) ∨
    c = unzipEmulatorCmd ah ∨
    c = sdkmanagerEmulatorCmd ∨
    c = sdkmanagerSysImgCmd api t a ∨
    c = sdkmanagerNdkCmd (jsStr ndk) ∨
    c = sdkmanagerCmakeCmd (jsStr cmk) := by
  have hT : truthy s.env.androidHome = true := by simp [truthy, hAH, hne]
  have hjs : jsStr s.env.androidHome = ah := by simp [jsStr, hAH]
  rw [installAndroidSdk_eq api t a eb ndk cmk s hT, afterBase_effects, hjs] at hc
  simp only [List.mem_append] at hc
  rcases hc with (((h1 | h2) | h3) | h4) | h5
  · unfold baseOkPair at h1
    rw [hjs] at h1
    by_cases hw : existsSync s.fs ah = true
    · simp [hw] at h1
    · simp only [hw, Bool.false_eq_true, if_false] at h1
      rcases List.mem_append.mp h1 with hb | ha2
      · rcases installBaseSdk_exec_shapes s c hb with h|h|h|h|h <;> (try rw [hjs] at h) <;> tauto
      · rcases acceptLicenses_exec_shapes _ c ha2 with h|h|h|h <;>
          (try rw [installBaseSdk_env_androidSdkHome] at h) <;>
          (try rw [installBaseSdk_env_androidHome] at h) <;>
          simp only [hAH, jsStr] at h <;> tauto
  · rw [chownStep_run] at h2
    by_cases hcond : (!(s.env.platform == "darwin") &&
        (baseOkPair s).1.env.freshSdkInstallation == "") = true
    · rw [hcond] at h2
      simp only [if_true, List.mem_singleton] at h2
      simp only [Effect.execCmd.injEq] at h2
      rw [Bool.and_eq_true, Bool.not_eq_true', beq_iff_eq, baseOkPair_env_fresh] at hcond
      exact Or.inr (Or.inr (Or.inr (Or.inr (Or.inr (Or.inr (Or.inr (Or.inr
        (Or.inl ⟨hcond.1, hcond.2, h2⟩))))))))
    · simp only [Bool.not_eq_true] at hcond
      rw [hcond] at h2
      simp at h2
  · rcases cmdlineStep_exec_shapes _ _ _ c h3 with h | h <;> tauto
  · exact absurd h4 (licenseSteps_no_exec _ _ _ _ _)
  · rcases hO : (licenseSteps (s.env.platform == "darwin") api ah
        (cmdlineStep (s.env.platform == "darwin") ah
          (chownStep (s.env.platform == "darwin") ah (baseOkPair s).1).1).1).2.2 with _ | q
    · rw [hO] at h5
      rcases packagesTail_exec_shapes _ _ _ _ _ _ _ _ _ _ h5 with h|h|h|h|h|h|h <;> tauto
    · rw [hO] at h5
      simp at h5

/-- The absence of cmdline-tools survives the base section. -/
theorem baseOkPair_cmdline_absent (s : St) (ah : String)
    (hAH : s.env.androidHome = some ah)
    (h : existsSync s.fs (ah ++ "/cmdline-tools") = false) :
    existsSync (baseOkPair s).1.fs (ah ++ "/cmdline-tools") = false := by
  have hjs : jsStr s.env.androidHome = ah := by simp [jsStr, hAH]
  unfold baseOkPair
  rw [hjs]
  by_cases hw : existsSync s.fs ah = true
  · simp [hw, h]
  · simp only [hw, Bool.false_eq_true, if_false]
    apply acceptLicenses_preserves_absent
    · apply installBaseSdk_preserves_absent _ _ h <;> (try rw [hjs])
      · simp only [String.append_assoc]
        exact append_left_cancel_ne ah (ne_append_left _ (by decide))
      · exact append_ne_of_suffix ah (by decide)
      · exact append_ne_self ah (by decide)
      · exact append_left_cancel_ne ah (by decide)
    · rw [installBaseSdk_env_androidSdkHome, hjs]
      simp only [jsStr]
      exact append_left_cancel_ne ah (by decide)
    · rw [installBaseSdk_env_androidSdkHome, hjs]
      simp only [jsStr, String.append_assoc]
      exact append_left_cancel_ne ah (ne_append_left _ (by decide))
    · rw [installBaseSdk_env_androidHome, hjs]
      exact append_left_cancel_ne ah (by decide)

/-- A missing SDK root triggers the platform-selected base-SDK download. -/
theorem run_base_curl_mem (api : Nat) (t a : String) (eb ndk cmk : Option String)
    (s : St) (ah : String) (hAH : s.env.androidHome = some ah) (hne : ah ≠ "")
    (h : existsSync s.fs ah = false) :
    Effect.execCmd (curlBaseCmd (if s.env.platform == "darwin" then BASE_ANDROID_SDK_URL_MAC
      else BASE_ANDROID_SDK_URL_LINUX)) ∈
      (installAndroidSdk api t a eb ndk cmk s).effects := by
  have hT : truthy s.env.androidHome = true := by simp [truthy, hAH, hne]
  have hjs : jsStr s.env.androidHome = ah := by simp [jsStr, hAH]
  rw [installAndroidSdk_eq api t a eb ndk cmk s hT, afterBase_effects]
  simp only [List.mem_append]
  refine Or.inl (Or.inl (Or.inl (Or.inl ?_)))
  unfold baseOkPair
  rw [hjs]
  simp only [h, Bool.false_eq_true, if_false]
  exact List.mem_append.mpr (Or.inl (installBaseSdk_curl_mem s))

/-- Missing cmdline-tools trigger the platform-selected tools download. -/
theorem run_cmdline_curl_mem (api : Nat) (t a : String) (eb ndk cmk : Option String)
    (s : St) (ah : String) (hAH : s.env.androidHome = some ah) (hne : ah ≠ "")
    (h : existsSync s.fs (ah ++ "/cmdline-tools") = false) :
    Effect.execCmd (curlCmdlineCmd (if s.env.platform == "darwin" then CMDLINE_TOOLS_URL_MAC
      else CMDLINE_TOOLS_URL_LINUX)) ∈
      (installAndroidSdk api t a eb ndk cmk s).effects := by
  have hT : truthy s.env.androidHome = true := by simp [truthy, hAH, hne]
  have hjs : jsStr s.env.androidHome = ah := by simp [jsStr, hAH]
  rw [installAndroidSdk_eq api t a eb ndk cmk s hT, afterBase_effects, hjs]
  simp only [List.mem_append]
  refine Or.inl (Or.inl (Or.inr ?_))
  rw [chownStep_fst]
  exact cmdlineStep_curl_mem _ _ _ (baseOkPair_cmdline_absent s ah hAH h)

/-- On a non-macOS platform with an empty fresh-sdk-installation input the
chown command is issued. -/
theorem run_chown_mem (api : Nat) (t a : String) (eb ndk cmk : Option String)
    (s : St) (ah : String) (hAH : s.env.androidHome = some ah) (hne : ah ≠ "")
    (hplat : (s.env.platform == "darwin") = false)
    (hfresh : s.env.freshSdkInstallation = "") :
    Effect.execCmd (chownCmd ah) ∈ (installAndroidSdk api t a eb ndk cmk s).effects := by
  have hT : truthy s.env.androidHome = true := by simp [truthy, hAH, hne]
  have hjs : jsStr s.env.androidHome = ah := by simp [jsStr, hAH]
  rw [installAndroidSdk_eq api t a eb ndk cmk s hT, afterBase_effects, hjs]
  simp only [List.mem_append]
  refine Or.inl (Or.inl (Or.inl (Or.inr ?_)))
  rw [chownStep_run, baseOkPair_env_fresh]
  simp [hplat, hfresh]

/-! ## Emulator-conditional inventories -/

set_option maxHeartbeats 1600000 in
theorem packagesTail_exec_shapes_cond (b : Bool) (api : Nat) (t a : String)
    (eb ndk cmk : Option String) (ah : String) (s : St) (c : String)
    (hc : Effect.execCmd c ∈ (packagesTail b api t a eb ndk cmk ah s).2) :
    c = sdkmanagerBaseCmd api ∨
    (truthy eb = true ∧ (c = curlEmulatorCmd (if b then "darwin" else "linux") (jsStr eb) ∨
      c = unzipEmulatorCmd ah)) ∨
    (truthy eb = false ∧ c = sdkmanagerEmulatorCmd) ∨
    c = sdkmanagerSysImgCmd api t a ∨
    c = sdkmanagerNdkCmd (jsStr ndk) ∨
    c = sdkmanagerCmakeCmd (jsStr cmk) := by
  unfold packagesTail at hc
  by_cases h1 : truthy eb = true
  · by_cases h2 : truthy ndk = true <;>
      by_cases h3 : truthy cmk = true <;>
        simp [h1, h2, h3] at hc <;> tauto
  · have h1' : truthy eb = false := by simpa using h1
    by_cases h2 : truthy ndk = true <;>
      by_cases h3 : truthy cmk = true <;>
        simp [h1', h2, h3] at hc <;> tauto

set_option maxHeartbeats 1600000 in
/-- Either-emulator-branch refinement of `run_exec_shapes`: the emulator
commands carry the exact branch condition. -/
theorem run_exec_shapes_emu (api : Nat) (t a : String) (eb ndk cmk : Option String)
    (s : St) (ah : String) (hAH : s.env.androidHome = some ah) (hne : ah ≠ "")
    (c : String)
    (hc : Effect.execCmd c ∈ (installAndroidSdk api t a eb ndk cmk s).effects) :
    c = mvBackupCmd (ah ++ "/sdk_home") s.env.now ∨
    c = curlBaseCmd (if s.env.platform == "darwin" then BASE_ANDROID_SDK_URL_MAC
      else BASE_ANDROID_SDK_URL_LINUX) ∨
    c = unzipBaseCmd ah ∨
    c = rmBaseCmd ∨
    c = mkdirCmd (ah ++ "/sdk_home") ∨
    c = touchRepositoriesCmd (ah ++ "/sdk_home") ∨
    c = mkdirCmd (ah ++ "/licenses") ∨
    c = yesLicensesCmd ah ∨
    c = chownCmd ah ∨
    c = curlCmdlineCmd (if s.env.platform == "darwin" then CMDLINE_TOOLS_URL_MAC
      else CMDLINE_TOOLS_URL_LINUX) ∨
    c = unzipCmdlineCmd (ah ++ "/cmdline-tools") ∨
    c = sdkmanagerBaseCmd api ∨
    (truthy eb = true ∧ (c = curlEmulatorCmd (if s.env.platform == "darwin" then "darwin"
      else "linux") (jsStr eb) ∨ c = unzipEmulatorCmd ah)) ∨
    (truthy eb = false ∧ c = sdkmanagerEmulatorCmd) ∨
    c = sdkmanagerSysImgCmd api t a ∨
    c = sdkmanagerNdkCmd (jsStr ndk) ∨
    c = sdkmanagerCmakeCmd (jsStr cmk) := by
  have hT : truthy s.env.androidHome = true := by simp [truthy, hAH, hne]
  have hjs : jsStr s.env.androidHome = ah := by simp [jsStr, hAH]
  rw [installAndroidSdk_eq api t a eb ndk cmk s hT, afterBase_effects, hjs] at hc
  simp only [List.mem_append] at hc
  rcases hc with (((h1 | h2) | h3) | h4) | h5
  · unfold baseOkPair at h1
    rw [hjs] at h1
    by_cases hw : existsSync s.fs ah = true
    · simp [hw] at h1
    · simp only [hw, Bool.false_eq_true, if_false] at h1
      rcases List.mem_append.mp h1 with hb | ha2
      · rcases installBaseSdk_exec_shapes s c hb with h|h|h|h|h <;> (try rw [hjs] at h) <;> tauto
      · rcases acceptLicenses_exec_shapes _ c ha2 with h|h|h|h <;>
          (try rw [installBaseSdk_env_androidSdkHome] at h) <;>
          (try rw [installBaseSdk_env_androidHome] at h) <;>
          simp only [hAH, jsStr] at h <;> tauto
  · have h := chownStep_effects_mem _ _ _ _ h2
    simp only [Effect.execCmd.injEq] at h
    tauto
  · rcases cmdlineStep_exec_shapes _ _ _ c h3 with h | h <;> tauto
  · exact absurd h4 (licenseSteps_no_exec _ _ _ _ _)
  · rcases hO : (licenseSteps (s.env.platform == "darwin") api ah
        (cmdlineStep (s.env.platform == "darwin") ah
          (chownStep (s.env.platform == "darwin") ah (baseOkPair s).1).1).1).2.2 with _ | q
    · rw [hO] at h5
      rcases packagesTail_exec_shapes_cond _ _ _ _ _ _ _ _ _ _ h5 with h|h|h|h|h|h <;> tauto
    · rw [hO] at h5
      simp at h5

/-! ## Claims -/

/-- C2: whenever the ANDROID_HOME environment variable is unset or empty,
`installAndroidSdk` signals the fatal configuration error through
`core.setFailed` and returns with the state untouched: no filesystem write,
no download, no external process, and no environment-variable export (the
trace holds exactly the one `setFailed`). -/
theorem claim_C2_missing_android_home_aborts_without_side_effects
    (api : Nat) (t a : String) (eb ndk cmk : Option String) (s : St)
    (h : truthy s.env.androidHome = false) :
    installAndroidSdk api t a eb ndk cmk s =
      { st := s, effects := [Effect.setFailed androidHomeMissingMsg],
        outcome := Outcome.failed } := by
  unfold installAndroidSdk
  simp [h]

/-- Witness for C2 at a concrete unset-ANDROID_HOME state. -/
theorem claim_C2_missing_android_home_aborts_without_side_effects_witness :
    installAndroidSdk 30 "google_apis" "x86_64" none none none
      { fs := ["/sdk"],
        env := { platform := "linux", androidHome := none, freshSdkInstallation := "",
                 pathVar := some "/usr/bin", androidSdkHome := none, now := 0 } } =
      { st := { fs := ["/sdk"],
                env := { platform := "linux", androidHome := none, freshSdkInstallation := "",
                         pathVar := some "/usr/bin", androidSdkHome := none, now := 0 } },
        effects := [Effect.setFailed androidHomeMissingMsg],
        outcome := Outcome.failed } :=
  claim_C2_missing_android_home_aborts_without_side_effects 30 "google_apis" "x86_64"
    none none none _ (by decide)

/-- C3: `installBaseSdk` and `acceptLicenses` return true on every execution
(lines 130 and 141), so the caller branches reporting "Could not install
base Android SDK." and "Could not accept Android SDK licenses." are
unreachable: no run of `installAndroidSdk` ever emits either `setFailed`. -/
theorem claim_C3_helper_success_makes_failure_branches_unreachable :
    (∀ s : St, (installBaseSdk s).2.2 = true) ∧
    (∀ s : St, (acceptLicenses s).2.2 = true) ∧
    (∀ (api : Nat) (t a : String) (eb ndk cmk : Option String) (s : St),
      Effect.setFailed couldNotInstallBaseMsg ∉ (installAndroidSdk api t a eb ndk cmk s).effects ∧
      Effect.setFailed couldNotAcceptLicensesMsg ∉ (installAndroidSdk api t a eb ndk cmk s).effects) := by
  refine ⟨installBaseSdk_true, acceptLicenses_true, fun api t a eb ndk cmk s => ⟨?_, ?_⟩⟩ <;>
    exact setFailed_only_missing_home api t a eb ndk cmk s _ (by decide)

/-- C8: when the SDK-home subdirectory already exists, `installBaseSdk`
renames it to sdk_home.backup.<timestamp> (the `mv`, trace position 3)
before the fresh SDK-home directory is created (the `mkdir -p`, trace
position 7); the run issues no recursive delete, and its only `rm` removes
the downloaded archive, so the pre-existing directory's contents are never
deleted. -/
theorem claim_C8_sdk_home_backed_up_never_deleted (s : St)
    (h : existsSync s.fs (jsStr s.env.androidHome ++ "/sdk_home") = true) :
    (installBaseSdk s).2.1 =
      [Effect.log ("Installing Android SDK on " ++ jsStr s.env.androidHome),
       Effect.exportVariable "ANDROID_SDK_HOME" (jsStr s.env.androidHome ++ "/sdk_home"),
       Effect.execCmd (mvBackupCmd (jsStr s.env.androidHome ++ "/sdk_home") s.env.now),
       Effect.execCmd (curlBaseCmd (if s.env.platform == "darwin" then BASE_ANDROID_SDK_URL_MAC
         else BASE_ANDROID_SDK_URL_LINUX)),
       Effect.execCmd (unzipBaseCmd (jsStr s.env.androidHome)),
       Effect.execCmd rmBaseCmd,
       Effect.execCmd (mkdirCmd (jsStr s.env.androidHome ++ "/sdk_home")),
       Effect.exportVariable "PATH" (extraPaths (jsStr s.env.androidHome) ++ ":" ++
         pathWithoutAndroid (jsOr s.env.pathVar))] ∧
    (∀ p, Effect.rmRF p ∉ (installBaseSdk s).2.1) := by
  have heq : (installBaseSdk s).2.1 =
      [Effect.log ("Installing Android SDK on " ++ jsStr s.env.androidHome),
       Effect.exportVariable "ANDROID_SDK_HOME" (jsStr s.env.androidHome ++ "/sdk_home"),
       Effect.execCmd (mvBackupCmd (jsStr s.env.androidHome ++ "/sdk_home") s.env.now),
       Effect.execCmd (curlBaseCmd (if s.env.platform == "darwin" then BASE_ANDROID_SDK_URL_MAC
         else BASE_ANDROID_SDK_URL_LINUX)),
       Effect.execCmd (unzipBaseCmd (jsStr s.env.androidHome)),
       Effect.execCmd rmBaseCmd,
       Effect.execCmd (mkdirCmd (jsStr s.env.androidHome ++ "/sdk_home")),
       Effect.exportVariable "PATH" (extraPaths (jsStr s.env.androidHome) ++ ":" ++
         pathWithoutAndroid (jsOr s.env.pathVar))] := by
    unfold installBaseSdk
    simp [h]
  refine ⟨heq, fun p => ?_⟩
  rw [heq]
  simp

/-- Witness for C8 on a runner whose SDK root holds an sdk_home directory. -/
theorem claim_C8_sdk_home_backed_up_never_deleted_witness :
    (installBaseSdk sdkHomeState).2.1 =
      [Effect.log ("Installing Android SDK on " ++ jsStr sdkHomeState.env.androidHome),
       Effect.exportVariable "ANDROID_SDK_HOME" (jsStr sdkHomeState.env.androidHome ++ "/sdk_home"),
       Effect.execCmd (mvBackupCmd (jsStr sdkHomeState.env.androidHome ++ "/sdk_home") sdkHomeState.env.now),
       Effect.execCmd (curlBaseCmd (if sdkHomeState.env.platform == "darwin" then BASE_ANDROID_SDK_URL_MAC
         else BASE_ANDROID_SDK_URL_LINUX)),
       Effect.execCmd (unzipBaseCmd (jsStr sdkHomeState.env.androidHome)),
       Effect.execCmd rmBaseCmd,
       Effect.execCmd (mkdirCmd (jsStr sdkHomeState.env.androidHome ++ "/sdk_home")),
       Effect.exportVariable "PATH" (extraPaths (jsStr sdkHomeState.env.androidHome) ++ ":" ++
         pathWithoutAndroid (jsOr sdkHomeState.env.pathVar))] ∧
    (∀ p, Effect.rmRF p ∉ (installBaseSdk sdkHomeState).2.1) :=
  claim_C8_sdk_home_backed_up_never_deleted sdkHomeState (by decide)

set_option maxRecDepth 4000 in
/-- C7 fails as stated: with ANDROID_HOME = /Users/runner/Library/Android/sdk
(the stock macOS location) and a prior PATH consisting of the single segment
/Users/runner/Library/Android/sdk/bin, that segment contains "Android", is
removed by the filter, and yet reappears verbatim in the exported PATH,
because it coincides with the first of the five freshly prepended tool
directories. -/
theorem claim_C7_counterexample :
    jsIncludes "/Users/runner/Library/Android/sdk/bin" "Android" = true ∧
    jsSplit (jsOr androidInHomeState.env.pathVar) ':' =
      ["/Users/runner/Library/Android/sdk/bin"] ∧
    Effect.exportVariable "PATH" (jsOr (installBaseSdk androidInHomeState).1.env.pathVar) ∈
      (installBaseSdk androidInHomeState).2.1 ∧
    "/Users/runner/Library/Android/sdk/bin" ∈
      jsSplit (jsOr (installBaseSdk androidInHomeState).1.env.pathVar) ':' := by
  decide

/-- C7 amended: after `installBaseSdk` runs, the exported PATH (its last
effect, also written back to the environment) equals the five new tool
directories prepended to the prior PATH with every colon-separated segment
containing "Android" removed; hence no Android-containing segment of the
prior PATH survives the filter into the tail of the new PATH (though one may
coincide with a prepended tool directory when ANDROID_HOME itself contains
"Android"). -/
theorem claim_C7_amended_path_filtered (s : St) :
    (installBaseSdk s).2.1.getLast? = some (Effect.exportVariable "PATH"
      (extraPaths (jsStr s.env.androidHome) ++ ":" ++ pathWithoutAndroid (jsOr s.env.pathVar))) ∧
    (installBaseSdk s).1.env.pathVar = some
      (extraPaths (jsStr s.env.androidHome) ++ ":" ++ pathWithoutAndroid (jsOr s.env.pathVar)) ∧
    (∀ e ∈ jsSplit (jsOr s.env.pathVar) ':', jsIncludes e "Android" = true →
      e ∉ (jsSplit (jsOr s.env.pathVar) ':').filter (fun x => !(jsIncludes x "Android"))) := by
  refine ⟨?_, ?_, fun e he hA => ?_⟩
  · simp only [installBaseSdk]
    split <;> simp
  · simp only [installBaseSdk]
    split <;> simp
  · simp [List.mem_filter, hA]

/-- C9: on a warm runner, where the SDK root and the cmdline-tools
subdirectory both already exist on entry, no environment variable is
exported and the search path is never rewritten or extended: the trace holds
no `exportVariable` (so ANDROID_SDK_HOME and PATH are untouched) and no
`addPath`, since both exports happen only on the fresh-install and
tools-absent branches. -/
theorem claim_C9_warm_run_exports_nothing (api : Nat) (t a : String)
    (eb ndk cmk : Option String) (s : St) (ah : String)
    (hAH : s.env.androidHome = some ah) (hne : ah ≠ "")
    (hroot : existsSync s.fs ah = true)
    (htools : existsSync s.fs (ah ++ "/cmdline-tools") = true) :
    ∀ e ∈ (installAndroidSdk api t a eb ndk cmk s).effects,
      (∀ n v, e ≠ Effect.exportVariable n v) ∧ (∀ p, e ≠ Effect.addPath p) := by
  have hT : truthy s.env.androidHome = true := by simp [truthy, hAH, hne]
  have hjs : jsStr s.env.androidHome = ah := by simp [jsStr, hAH]
  intro e he
  rw [installAndroidSdk_eq api t a eb ndk cmk s hT, afterBase_effects, hjs,
    baseOkPair_warm s (by rw [hjs]; exact hroot)] at he
  dsimp only at he
  rw [chownStep_fst, cmdlineStep_skip _ _ _ htools] at he
  dsimp only at he
  simp only [List.mem_append] at he
  rcases he with (((h1 | h2) | h3) | h4) | h5
  · simp only [List.mem_singleton] at h1
    simp [h1]
  · have h := chownStep_effects_mem _ _ _ _ h2
    simp [h]
  · simp at h3
  · rcases licenseSteps_effects_mem _ _ _ _ _ h4 with h | h <;> simp [h]
  · rcases hO : (licenseSteps (s.env.platform == "darwin") api ah s).2.2 with _ | q
    · rw [hO] at h5
      have h := packagesTail_effects_mem _ _ _ _ _ _ _ _ _ _ h5
      simp only [List.mem_cons, List.not_mem_nil, or_false] at h
      rcases h with h|h|h|h|h|h|h|h|h|h|h|h|h|h|h <;> simp [h]
    · rw [hO] at h5
      simp at h5

/-- Witness for C9 on a concrete warm Linux runner. -/
theorem claim_C9_warm_run_exports_nothing_witness :
    warmLinuxState.env.androidHome = some "/sdk" ∧
    (∀ e ∈ (installAndroidSdk 30 "google_apis" "x86_64" none none none warmLinuxState).effects,
      (∀ n v, e ≠ Effect.exportVariable n v) ∧ (∀ p, e ≠ Effect.addPath p)) :=
  ⟨by decide,
   claim_C9_warm_run_exports_nothing 30 "google_apis" "x86_64" none none none
     warmLinuxState "/sdk" (by decide) (by decide) (by decide) (by decide)⟩

/-- C4: on a filesystem where the SDK root and the cmdline-tools
subdirectory both already exist, a run of `installAndroidSdk` issues no
base-SDK download or unpack command and no command-line-tools download or
unpack command (both existence checks short-circuit those steps), and both
directories still exist when the run ends — so running the bootstrap twice
in succession downloads each of these at most once. -/
theorem claim_C4_warm_run_skips_downloads (api : Nat) (t a : String)
    (eb ndk cmk : Option String) (s : St) (ah : String)
    (hAH : s.env.androidHome = some ah) (hhead : ah.data.head? = some '/')
    (hroot : existsSync s.fs ah = true)
    (htools : existsSync s.fs (ah ++ "/cmdline-tools") = true) :
    (∀ u, Effect.execCmd (curlBaseCmd u) ∉ (installAndroidSdk api t a eb ndk cmk s).effects) ∧
    (∀ u, Effect.execCmd (curlCmdlineCmd u) ∉ (installAndroidSdk api t a eb ndk cmk s).effects) ∧
    (∀ x, Effect.execCmd (unzipBaseCmd x) ∉ (installAndroidSdk api t a eb ndk cmk s).effects) ∧
    (∀ x, Effect.execCmd (unzipCmdlineCmd x) ∉ (installAndroidSdk api t a eb ndk cmk s).effects) ∧
    existsSync (installAndroidSdk api t a eb ndk cmk s).st.fs ah = true ∧
    existsSync (installAndroidSdk api t a eb ndk cmk s).st.fs (ah ++ "/cmdline-tools") = true := by
  have hne : ah ≠ "" := by
    intro he
    rw [he] at hhead
    simp at hhead
  have hT : truthy s.env.androidHome = true := by simp [truthy, hAH, hne]
  have hjs : jsStr s.env.androidHome = ah := by simp [jsStr, hAH]
  refine ⟨fun u hmem => ?_, fun u hmem => ?_, fun x hmem => ?_, fun x hmem => ?_, ?_, ?_⟩
  · rcases warm_run_exec_shapes api t a eb ndk cmk s ah hAH hne hroot htools _ hmem with
      h|h|h|h|h|h|h|h
    · exact ne_curlB_chown u ah h
    · exact ne_curlB_sdkB u api h
    · exact ne_curlB_curlE u _ _ h
    · exact ne_curlB_unzipE u ah h
    · exact ne_curlB_sdkE u h
    · exact ne_curlB_sys u api t a h
    · exact ne_curlB_ndk u _ h
    · exact ne_curlB_cmake u _ h
  · rcases warm_run_exec_shapes api t a eb ndk cmk s ah hAH hne hroot htools _ hmem with
      h|h|h|h|h|h|h|h
    · exact ne_chown_curlC ah u h.symm
    · exact ne_curlC_sdkB u api h
    · exact ne_curlC_curlE u _ _ h
    · exact ne_curlC_unzipE u ah h
    · exact ne_curlC_sdkE u h
    · exact ne_curlC_sys u api t a h
    · exact ne_curlC_ndk u _ h
    · exact ne_curlC_cmake u _ h
  · rcases warm_run_exec_shapes api t a eb ndk cmk s ah hAH hne hroot htools _ hmem with
      h|h|h|h|h|h|h|h
    · exact ne_unzipB_chown x ah h
    · exact ne_unzipB_sdkB x api h
    · exact ne_unzipB_curlE x _ _ h
    · exact ne_unzipB_unzipE x ah h
    · exact ne_unzipB_sdkE x h
    · exact ne_unzipB_sys x api t a h
    · exact ne_unzipB_ndk x _ h
    · exact ne_unzipB_cmake x _ h
  · rcases warm_run_exec_shapes api t a eb ndk cmk s ah hAH hne hroot htools _ hmem with
      h|h|h|h|h|h|h|h
    · exact ne_chown_unzipC ah x h.symm
    · exact ne_unzipC_sdkB x api h
    · exact ne_unzipC_curlE x _ _ h
    · exact ne_unzipC_unzipE x ah h
    · exact ne_unzipC_sdkE x h
    · exact ne_unzipC_sys x api t a h
    · exact ne_unzipC_ndk x _ h
    · exact ne_unzipC_cmake x _ h
  · rw [installAndroidSdk_eq api t a eb ndk cmk s hT, afterBase_st, hjs,
      baseOkPair_warm s (by rw [hjs]; exact hroot)]
    dsimp only
    rw [chownStep_fst, cmdlineStep_skip _ _ _ htools]
    rcases hO : (licenseSteps (s.env.platform == "darwin") api ah s).2.2 with _ | q <;> simp only []
    · exact packagesTail_fs_pres _ _ _ _ _ _ _ _ _ _
        (licenseSteps_preserves_present _ _ _ _ _ hroot)
        (isPathOrUnder_self_under ah "/emulator" (by decide))
        (isPathOrUnder_head_ne ah "emulator.zip" hhead
          (by decide : ("emulator.zip" : String).data.head? = some 'e') (by decide))
    · exact licenseSteps_preserves_present _ _ _ _ _ hroot
  · rw [installAndroidSdk_eq api t a eb ndk cmk s hT, afterBase_st, hjs,
      baseOkPair_warm s (by rw [hjs]; exact hroot)]
    dsimp only
    rw [chownStep_fst, cmdlineStep_skip _ _ _ htools]
    rcases hO : (licenseSteps (s.env.platform == "darwin") api ah s).2.2 with _ | q <;> simp only []
    · exact packagesTail_fs_pres _ _ _ _ _ _ _ _ _ _
        (licenseSteps_preserves_present _ _ _ _ _ htools)
        (by rw [isPathOrUnder_append_cancel]; decide)
        (isPathOrUnder_head_ne _ "emulator.zip" (head?_data_append ah _ hhead)
          (by decide : ("emulator.zip" : String).data.head? = some 'e') (by decide))
    · exact licenseSteps_preserves_present _ _ _ _ _ htools

/-- Witness for C4 on a concrete warm Linux runner. -/
theorem claim_C4_warm_run_skips_downloads_witness :
    (∀ u, Effect.execCmd (curlBaseCmd u) ∉
      (installAndroidSdk 30 "google_apis" "x86_64" none none none warmLinuxState).effects) ∧
    (∀ u, Effect.execCmd (curlCmdlineCmd u) ∉
      (installAndroidSdk 30 "google_apis" "x86_64" none none none warmLinuxState).effects) ∧
    (∀ x, Effect.execCmd (unzipBaseCmd x) ∉
      (installAndroidSdk 30 "google_apis" "x86_64" none none none warmLinuxState).effects) ∧
    (∀ x, Effect.execCmd (unzipCmdlineCmd x) ∉
      (installAndroidSdk 30 "google_apis" "x86_64" none none none warmLinuxState).effects) ∧
    existsSync (installAndroidSdk 30 "google_apis" "x86_64" none none none warmLinuxState).st.fs
      "/sdk" = true ∧
    existsSync (installAndroidSdk 30 "google_apis" "x86_64" none none none warmLinuxState).st.fs
      ("/sdk" ++ "/cmdline-tools") = true :=
  claim_C4_warm_run_skips_downloads 30 "google_apis" "x86_64" none none none
    warmLinuxState "/sdk" (by decide) (by decide) (by decide) (by decide)

set_option maxHeartbeats 1600000 in
/-- C5: on macOS the macOS download URLs are selected and the recursive
chown is never invoked; on any other platform the Linux URLs are selected
and the chown runs exactly when the fresh-sdk-installation input is the
empty string. -/
theorem claim_C5_platform_branching (api : Nat) (t a : String)
    (eb ndk cmk : Option String) (s : St) (ah : String)
    (hAH : s.env.androidHome = some ah) (hne : ah ≠ "") :
    (s.env.platform = "darwin" →
      Effect.execCmd (curlBaseCmd BASE_ANDROID_SDK_URL_LINUX) ∉
        (installAndroidSdk api t a eb ndk cmk s).effects ∧
      Effect.execCmd (curlCmdlineCmd CMDLINE_TOOLS_URL_LINUX) ∉
        (installAndroidSdk api t a eb ndk cmk s).effects ∧
      Effect.execCmd (chownCmd ah) ∉ (installAndroidSdk api t a eb ndk cmk s).effects ∧
      (existsSync s.fs ah = false →
        Effect.execCmd (curlBaseCmd BASE_ANDROID_SDK_URL_MAC) ∈
          (installAndroidSdk api t a eb ndk cmk s).effects) ∧
      (existsSync s.fs (ah ++ "/cmdline-tools") = false →
        Effect.execCmd (curlCmdlineCmd CMDLINE_TOOLS_URL_MAC) ∈
          (installAndroidSdk api t a eb ndk cmk s).effects)) ∧
    (s.env.platform ≠ "darwin" →
      Effect.execCmd (curlBaseCmd BASE_ANDROID_SDK_URL_MAC) ∉
        (installAndroidSdk api t a eb ndk cmk s).effects ∧
      Effect.execCmd (curlCmdlineCmd CMDLINE_TOOLS_URL_MAC) ∉
        (installAndroidSdk api t a eb ndk cmk s).effects ∧
      (Effect.execCmd (chownCmd ah) ∈ (installAndroidSdk api t a eb ndk cmk s).effects ↔
        s.env.freshSdkInstallation = "") ∧
      (existsSync s.fs ah = false →
        Effect.execCmd (curlBaseCmd BASE_ANDROID_SDK_URL_LINUX) ∈
          (installAndroidSdk api t a eb ndk cmk s).effects) ∧
      (existsSync s.fs (ah ++ "/cmdline-tools") = false →
        Effect.execCmd (curlCmdlineCmd CMDLINE_TOOLS_URL_LINUX) ∈
          (installAndroidSdk api t a eb ndk cmk s).effects)) := by
  constructor
  · intro hm
    have hMB : (s.env.platform == "darwin") = true := by simp [hm]
    refine ⟨fun hmem => ?_, fun hmem => ?_, fun hmem => ?_, fun hx => ?_, fun hx => ?_⟩
    · have hs := run_exec_shapes api t a eb ndk cmk s ah hAH hne _ hmem
      simp [hMB] at hs
      rcases hs with h|h|h|h|h|h|h|h|h|h|h|h|h|h|h|h|h
      exacts [ne_mv_curlB _ _ _ h.symm, ne_urls_curlB h, ne_curlB_unzipB _ _ h,
        ne_curlB_rmB _ h, ne_curlB_mkdir _ _ h, ne_curlB_touch _ _ h, ne_curlB_mkdir _ _ h,
        ne_curlB_yes _ _ h, ne_curlB_curlC _ _ h, ne_curlB_unzipC _ _ h, ne_curlB_sdkB _ _ h,
        ne_curlB_curlE _ _ _ h, ne_curlB_unzipE _ _ h, ne_curlB_sdkE _ h,
        ne_curlB_sys _ _ _ _ h, ne_curlB_ndk _ _ h, ne_curlB_cmake _ _ h]
    · have hs := run_exec_shapes api t a eb ndk cmk s ah hAH hne _ hmem
      simp [hMB] at hs
      rcases hs with h|h|h|h|h|h|h|h|h|h|h|h|h|h|h|h|h
      exacts [ne_mv_curlC _ _ _ h.symm, ne_curlB_curlC _ _ h.symm, ne_unzipB_curlC _ _ h.symm,
        ne_rmB_curlC _ h.symm, ne_mkdir_curlC _ _ h.symm, ne_touch_curlC _ _ h.symm,
        ne_mkdir_curlC _ _ h.symm, ne_yes_curlC _ _ h.symm, ne_urls_curlC h,
        ne_curlC_unzipC _ _ h, ne_curlC_sdkB _ _ h, ne_curlC_curlE _ _ _ h,
        ne_curlC_unzipE _ _ h, ne_curlC_sdkE _ h, ne_curlC_sys _ _ _ _ h,
        ne_curlC_ndk _ _ h, ne_curlC_cmake _ _ h]
    · have hs := run_exec_shapes api t a eb ndk cmk s ah hAH hne _ hmem
      simp [hMB] at hs
      rcases hs with h|h|h|h|h|h|h|h|h|h|h|h|h|h|h|h|h
      exacts [ne_mv_chown _ _ _ h.symm, ne_curlB_chown _ _ h.symm, ne_unzipB_chown _ _ h.symm,
        ne_rmB_chown _ h.symm, ne_mkdir_chown _ _ h.symm, ne_touch_chown _ _ h.symm,
        ne_mkdir_chown _ _ h.symm, ne_yes_chown _ _ h.symm, ne_chown_curlC _ _ h,
        ne_chown_unzipC _ _ h, ne_chown_sdkB _ _ h, ne_chown_curlE _ _ _ h,
        ne_chown_unzipE _ _ h, ne_chown_sdkE _ h, ne_chown_sys _ _ _ _ h,
        ne_chown_ndk _ _ h, ne_chown_cmake _ _ h]
    · have := run_base_curl_mem api t a eb ndk cmk s ah hAH hne hx
      rw [hMB] at this
      simpa using this
    · have := run_cmdline_curl_mem api t a eb ndk cmk s ah hAH hne hx
      rw [hMB] at this
      simpa using this
  · intro hm
    have hMB : (s.env.platform == "darwin") = false := by simp [hm]
    refine ⟨fun hmem => ?_, fun hmem => ?_, ⟨fun hmem => ?_, fun hfresh => ?_⟩, fun hx => ?_,
      fun hx => ?_⟩
    · have hs := run_exec_shapes api t a eb ndk cmk s ah hAH hne _ hmem
      simp [hMB] at hs
      rcases hs with h|h|h|h|h|h|h|h|hch|h|h|h|h|h|h|h|h|h
      exacts [ne_mv_curlB _ _ _ h.symm, ne_urls_curlB h.symm, ne_curlB_unzipB _ _ h,
        ne_curlB_rmB _ h, ne_curlB_mkdir _ _ h, ne_curlB_touch _ _ h, ne_curlB_mkdir _ _ h,
        ne_curlB_yes _ _ h, ne_curlB_chown _ _ hch.2, ne_curlB_curlC _ _ h,
        ne_curlB_unzipC _ _ h, ne_curlB_sdkB _ _ h, ne_curlB_curlE _ _ _ h,
        ne_curlB_unzipE _ _ h, ne_curlB_sdkE _ h, ne_curlB_sys _ _ _ _ h,
        ne_curlB_ndk _ _ h, ne_curlB_cmake _ _ h]
    · have hs := run_exec_shapes api t a eb ndk cmk s ah hAH hne _ hmem
      simp [hMB] at hs
      rcases hs with h|h|h|h|h|h|h|h|hch|h|h|h|h|h|h|h|h|h
      exacts [ne_mv_curlC _ _ _ h.symm, ne_curlB_curlC _ _ h.symm, ne_unzipB_curlC _ _ h.symm,
        ne_rmB_curlC _ h.symm, ne_mkdir_curlC _ _ h.symm, ne_touch_curlC _ _ h.symm,
        ne_mkdir_curlC _ _ h.symm, ne_yes_curlC _ _ h.symm, ne_chown_curlC _ _ hch.2.symm,
        ne_urls_curlC h.symm, ne_curlC_unzipC _ _ h, ne_curlC_sdkB _ _ h,
        ne_curlC_curlE _ _ _ h, ne_curlC_unzipE _ _ h, ne_curlC_sdkE _ h,
        ne_curlC_sys _ _ _ _ h, ne_curlC_ndk _ _ h, ne_curlC_cmake _ _ h]
    · have hs := run_exec_shapes api t a eb ndk cmk s ah hAH hne _ hmem
      simp [hMB] at hs
      rcases hs with h|h|h|h|h|h|h|h|hch|h|h|h|h|h|h|h|h|h
      exacts [absurd h.symm (ne_mv_chown _ _ _), absurd h.symm (ne_curlB_chown _ _),
        absurd h.symm (ne_unzipB_chown _ _), absurd h.symm (ne_rmB_chown _),
        absurd h.symm (ne_mkdir_chown _ _), absurd h.symm (ne_touch_chown _ _),
        absurd h.symm (ne_mkdir_chown _ _), absurd h.symm (ne_yes_chown _ _), hch,
        absurd h (ne_chown_curlC _ _), absurd h (ne_chown_unzipC _ _),
        absurd h (ne_chown_sdkB _ _), absurd h (ne_chown_curlE _ _ _),
        absurd h (ne_chown_unzipE _ _), absurd h (ne_chown_sdkE _),
        absurd h (ne_chown_sys _ _ _ _), absurd h (ne_chown_ndk _ _),
        absurd h (ne_chown_cmake _ _)]
    · exact run_chown_mem api t a eb ndk cmk s ah hAH hne hMB hfresh
    · have := run_base_curl_mem api t a eb ndk cmk s ah hAH hne hx
      rw [hMB] at this
      simpa using this
    · have := run_cmdline_curl_mem api t a eb ndk cmk s ah hAH hne hx
      rw [hMB] at this
      simpa using this

/-- Witness for C5 on a concrete warm macOS runner. -/
theorem claim_C5_platform_branching_witness :
    ((warmMacState.env.platform = "darwin" →
      Effect.execCmd (curlBaseCmd BASE_ANDROID_SDK_URL_LINUX) ∉
        (installAndroidSdk 30 "google_apis" "x86_64" none none none warmMacState).effects ∧
      Effect.execCmd (curlCmdlineCmd CMDLINE_TOOLS_URL_LINUX) ∉
        (installAndroidSdk 30 "google_apis" "x86_64" none none none warmMacState).effects ∧
      Effect.execCmd (chownCmd "/sdk") ∉
        (installAndroidSdk 30 "google_apis" "x86_64" none none none warmMacState).effects ∧
      (existsSync warmMacState.fs "/sdk" = false →
        Effect.execCmd (curlBaseCmd BASE_ANDROID_SDK_URL_MAC) ∈
          (installAndroidSdk 30 "google_apis" "x86_64" none none none warmMacState).effects) ∧
      (existsSync warmMacState.fs ("/sdk" ++ "/cmdline-tools") = false →
        Effect.execCmd (curlCmdlineCmd CMDLINE_TOOLS_URL_MAC) ∈
          (installAndroidSdk 30 "google_apis" "x86_64" none none none warmMacState).effects)) ∧
    (warmMacState.env.platform ≠ "darwin" →
      Effect.execCmd (curlBaseCmd BASE_ANDROID_SDK_URL_MAC) ∉
        (installAndroidSdk 30 "google_apis" "x86_64" none none none warmMacState).effects ∧
      Effect.execCmd (curlCmdlineCmd CMDLINE_TOOLS_URL_MAC) ∉
        (installAndroidSdk 30 "google_apis" "x86_64" none none none warmMacState).effects ∧
      (Effect.execCmd (chownCmd "/sdk") ∈
          (installAndroidSdk 30 "google_apis" "x86_64" none none none warmMacState).effects ↔
        warmMacState.env.freshSdkInstallation = "") ∧
      (existsSync warmMacState.fs "/sdk" = false →
        Effect.execCmd (curlBaseCmd BASE_ANDROID_SDK_URL_LINUX) ∈
          (installAndroidSdk 30 "google_apis" "x86_64" none none none warmMacState).effects) ∧
      (existsSync warmMacState.fs ("/sdk" ++ "/cmdline-tools") = false →
        Effect.execCmd (curlCmdlineCmd CMDLINE_TOOLS_URL_LINUX) ∈
          (installAndroidSdk 30 "google_apis" "x86_64" none none none warmMacState).effects))) :=
  claim_C5_platform_branching 30 "google_apis" "x86_64" none none none
    warmMacState "/sdk" (by decide) (by decide)

set_option maxHeartbeats 1600000 in
/-- C6: in a completed run, supplying an emulator build id downloads exactly
the matching platform archive, removes the pre-existing emulator directory
before unpacking the archive (the trace contains download, remove, unpack,
archive-delete in that order), and never invokes the package manager's
emulator install; omitting the build id invokes exactly
"sdkmanager --install emulator" and downloads no emulator archive. -/
theorem claim_C6_emulator_selection (api : Nat) (t a : String)
    (eb ndk cmk : Option String) (s : St) (ah : String)
    (hAH : s.env.androidHome = some ah) (hne : ah ≠ "")
    (hok : (installAndroidSdk api t a eb ndk cmk s).outcome = Outcome.ok) :
    (truthy eb = true →
      List.Sublist
       [Effect.execCmd (curlEmulatorCmd (if s.env.platform == "darwin" then "darwin" else "linux")
         (jsStr eb)),
        Effect.rmRF (ah ++ "/emulator"),
        Effect.execCmd (unzipEmulatorCmd ah),
        Effect.rmRF "emulator.zip"]
        (installAndroidSdk api t a eb ndk cmk s).effects ∧
      Effect.execCmd sdkmanagerEmulatorCmd ∉ (installAndroidSdk api t a eb ndk cmk s).effects) ∧
    (truthy eb = false →
      Effect.execCmd sdkmanagerEmulatorCmd ∈ (installAndroidSdk api t a eb ndk cmk s).effects ∧
      (∀ pl b0 : String, Effect.execCmd (curlEmulatorCmd pl b0) ∉
        (installAndroidSdk api t a eb ndk cmk s).effects)) := by
  have hT : truthy s.env.androidHome = true := by simp [truthy, hAH, hne]
  have hjs : jsStr s.env.androidHome = ah := by simp [jsStr, hAH]
  have hout := hok
  rw [installAndroidSdk_eq api t a eb ndk cmk s hT, afterBase_outcome, hjs] at hout
  rcases hO : (licenseSteps (s.env.platform == "darwin") api ah
      (cmdlineStep (s.env.platform == "darwin") ah
        (chownStep (s.env.platform == "darwin") ah (baseOkPair s).1).1).1).2.2 with _ | q
  swap
  · rw [hO] at hout
    simp at hout
  have hEff : (installAndroidSdk api t a eb ndk cmk s).effects =
      (baseOkPair s).2 ++
      (chownStep (s.env.platform == "darwin") ah (baseOkPair s).1).2 ++
      (cmdlineStep (s.env.platform == "darwin") ah
        (chownStep (s.env.platform == "darwin") ah (baseOkPair s).1).1).2 ++
      (licenseSteps (s.env.platform == "darwin") api ah
        (cmdlineStep (s.env.platform == "darwin") ah
          (chownStep (s.env.platform == "darwin") ah (baseOkPair s).1).1).1).2.1 ++
      (packagesTail (s.env.platform == "darwin") api t a eb ndk cmk ah
        (licenseSteps (s.env.platform == "darwin") api ah
          (cmdlineStep (s.env.platform == "darwin") ah
            (chownStep (s.env.platform == "darwin") ah (baseOkPair s).1).1).1).1).2 := by
    rw [installAndroidSdk_eq api t a eb ndk cmk s hT, afterBase_effects, hjs, hO]
  constructor
  · intro heb
    constructor
    · have hsub : List.Sublist
          [Effect.execCmd (curlEmulatorCmd (if s.env.platform == "darwin" then "darwin"
            else "linux") (jsStr eb)),
           Effect.rmRF (ah ++ "/emulator"),
           Effect.execCmd (unzipEmulatorCmd ah),
           Effect.rmRF "emulator.zip"]
          (packagesTail (s.env.platform == "darwin") api t a eb ndk cmk ah
            (licenseSteps (s.env.platform == "darwin") api ah
              (cmdlineStep (s.env.platform == "darwin") ah
                (chownStep (s.env.platform == "darwin") ah (baseOkPair s).1).1).1).1).2 := by
        rw [packagesTail_with_eb _ _ _ _ _ _ _ _ _ heb]
        have h9 : ([Effect.log "Installing latest build tools, platform tools, and platform.",
            Effect.execCmd (sdkmanagerBaseCmd api),
            Effect.log ("Installing emulator build " ++ jsStr eb ++ "."),
            Effect.execCmd (curlEmulatorCmd (if s.env.platform == "darwin" then "darwin"
              else "linux") (jsStr eb)),
            Effect.rmRF (ah ++ "/emulator"),
            Effect.execCmd (unzipEmulatorCmd ah),
            Effect.rmRF "emulator.zip",
            Effect.log "Installing system images.",
            Effect.execCmd (sdkmanagerSysImgCmd api t a)] : List Effect) =
            [Effect.log "Installing latest build tools, platform tools, and platform.",
             Effect.execCmd (sdkmanagerBaseCmd api),
             Effect.log ("Installing emulator build " ++ jsStr eb ++ ".")] ++
            ([Effect.execCmd (curlEmulatorCmd (if s.env.platform == "darwin" then "darwin"
               else "linux") (jsStr eb)),
              Effect.rmRF (ah ++ "/emulator"),
              Effect.execCmd (unzipEmulatorCmd ah),
              Effect.rmRF "emulator.zip"] ++
             [Effect.log "Installing system images.",
              Effect.execCmd (sdkmanagerSysImgCmd api t a)]) := rfl
        rw [h9]
        have s3 := (List.sublist_append_left
            [Effect.execCmd (curlEmulatorCmd (if s.env.platform == "darwin" then "darwin"
               else "linux") (jsStr eb)),
             Effect.rmRF (ah ++ "/emulator"),
             Effect.execCmd (unzipEmulatorCmd ah),
             Effect.rmRF "emulator.zip"]
            [Effect.log "Installing system images.",
             Effect.execCmd (sdkmanagerSysImgCmd api t a)]).trans
          (List.sublist_append_right
            [Effect.log "Installing latest build tools, platform tools, and platform.",
             Effect.execCmd (sdkmanagerBaseCmd api),
             Effect.log ("Installing emulator build " ++ jsStr eb ++ ".")] _)
        exact (s3.trans (List.sublist_append_left _ _)).trans (List.sublist_append_left _ _)
      rw [hEff]
      exact hsub.trans (List.sublist_append_right _ _)
    · intro hmem
      rcases run_exec_shapes_emu api t a eb ndk cmk s ah hAH hne _ hmem with
        h|h|h|h|h|h|h|h|h|h|h|h|h13|h14|h|h|h
      exacts [ne_mv_sdkE _ _ h.symm, ne_curlB_sdkE _ h.symm, ne_unzipB_sdkE _ h.symm,
        ne_rmB_sdkE h.symm, ne_mkdir_sdkE _ h.symm, ne_touch_sdkE _ h.symm,
        ne_mkdir_sdkE _ h.symm, ne_yes_sdkE _ h.symm, ne_chown_sdkE _ h.symm,
        ne_curlC_sdkE _ h.symm, ne_unzipC_sdkE _ h.symm, ne_sdkB_sdkE _ h.symm,
        h13.2.elim (fun h => ne_curlE_sdkE _ _ h.symm) (fun h => ne_unzipE_sdkE _ h.symm),
        absurd (heb.symm.trans h14.1) (by decide),
        ne_sdkE_sys _ _ _ h, ne_sdkE_ndk _ h, ne_sdkE_cmake _ h]
  · intro hebf
    constructor
    · rw [hEff, packagesTail_no_eb _ _ _ _ _ _ _ _ _ hebf]
      simp
    · intro pl b0 hmem
      rcases run_exec_shapes_emu api t a eb ndk cmk s ah hAH hne _ hmem with
        h|h|h|h|h|h|h|h|h|h|h|h|h13|h14|h|h|h
      exacts [ne_mv_curlE _ _ _ _ h.symm, ne_curlB_curlE _ _ _ h.symm,
        ne_unzipB_curlE _ _ _ h.symm, ne_rmB_curlE _ _ h.symm, ne_mkdir_curlE _ _ _ h.symm,
        ne_touch_curlE _ _ _ h.symm, ne_mkdir_curlE _ _ _ h.symm, ne_yes_curlE _ _ _ h.symm,
        ne_chown_curlE _ _ _ h.symm, ne_curlC_curlE _ _ _ h.symm, ne_unzipC_curlE _ _ _ h.symm,
        ne_sdkB_curlE _ _ _ h.symm,
        absurd (hebf.symm.trans h13.1) (by decide),
        ne_curlE_sdkE _ _ h14.2,
        ne_curlE_sys _ _ _ _ _ h, ne_curlE_ndk _ _ _ h, ne_curlE_cmake _ _ _ h]

/-- Witness for C6 on a warm Linux runner with a pinned emulator build. -/
theorem claim_C6_emulator_selection_witness :
    ((truthy (some "7425822") = true →
      List.Sublist
       [Effect.execCmd (curlEmulatorCmd (if warmLinuxState.env.platform == "darwin" then "darwin"
          else "linux") (jsStr (some "7425822"))),
        Effect.rmRF ("/sdk" ++ "/emulator"),
        Effect.execCmd (unzipEmulatorCmd "/sdk"),
        Effect.rmRF "emulator.zip"]
        (installAndroidSdk 30 "google_apis" "x86_64" (some "7425822") none none
          warmLinuxState).effects ∧
      Effect.execCmd sdkmanagerEmulatorCmd ∉
        (installAndroidSdk 30 "google_apis" "x86_64" (some "7425822") none none
          warmLinuxState).effects) ∧
    (truthy (some "7425822") = false →
      Effect.execCmd sdkmanagerEmulatorCmd ∈
        (installAndroidSdk 30 "google_apis" "x86_64" (some "7425822") none none
          warmLinuxState).effects ∧
      (∀ pl b0 : String, Effect.execCmd (curlEmulatorCmd pl b0) ∉
        (installAndroidSdk 30 "google_apis" "x86_64" (some "7425822") none none
          warmLinuxState).effects))) :=
  claim_C6_emulator_selection 30 "google_apis" "x86_64" (some "7425822") none none
    warmLinuxState "/sdk" (by decide) (by decide) (by decide)

set_option maxHeartbeats 1600000 in
/-- C10: on a warm runner whose SDK root exists but whose licenses directory
does not, the license-marker write throws: on a non-macOS platform the run
ends with an exception naming the preview-license path, on macOS with API
level 30 it ends with an exception naming the arm-dbt-license path, and in
either situation no sdkmanager invocation and no creation of the licenses
directory appears in the trace (the mkdir of the licenses directory belongs
to acceptLicenses, which only the fresh-install path runs). -/
theorem claim_C10_license_write_throws_without_licenses_dir (api : Nat) (t a : String)
    (eb ndk cmk : Option String) (s : St) (ah : String)
    (hAH : s.env.androidHome = some ah) (hne : ah ≠ "")
    (hhead : ah.data.head? = some '/')
    (hroot : existsSync s.fs ah = true)
    (hlic : existsSync s.fs (ah ++ "/licenses") = false)
    (hm1 : existsSync s.fs (ah ++ "/licenses/android-sdk-preview-license") = false)
    (hm2 : existsSync s.fs (ah ++ "/licenses/android-sdk-arm-dbt-license") = false) :
    ((s.env.platform == "darwin") = false →
      (installAndroidSdk api t a eb ndk cmk s).outcome =
        Outcome.exn (ah ++ "/licenses/android-sdk-preview-license")) ∧
    ((s.env.platform == "darwin") = true → api = 30 →
      (installAndroidSdk api t a eb ndk cmk s).outcome =
        Outcome.exn (ah ++ "/licenses/android-sdk-arm-dbt-license")) ∧
    (((s.env.platform == "darwin") = false ∨ api = 30) →
      ∀ (n : Nat) (t2 a2 v : String),
        Effect.execCmd (sdkmanagerBaseCmd n) ∉ (installAndroidSdk api t a eb ndk cmk s).effects ∧
        Effect.execCmd sdkmanagerEmulatorCmd ∉ (installAndroidSdk api t a eb ndk cmk s).effects ∧
        Effect.execCmd (sdkmanagerSysImgCmd n t2 a2) ∉
          (installAndroidSdk api t a eb ndk cmk s).effects ∧
        Effect.execCmd (sdkmanagerNdkCmd v) ∉ (installAndroidSdk api t a eb ndk cmk s).effects ∧
        Effect.execCmd (sdkmanagerCmakeCmd v) ∉ (installAndroidSdk api t a eb ndk cmk s).effects ∧
        Effect.execCmd (mkdirCmd (ah ++ "/licenses")) ∉
          (installAndroidSdk api t a eb ndk cmk s).effects) := by
  have hT : truthy s.env.androidHome = true := by simp [truthy, hAH, hne]
  have hjs : jsStr s.env.androidHome = ah := by simp [jsStr, hAH]
  have hwarm : baseOkPair s = (s, [Effect.log usingPrevMsg]) :=
    baseOkPair_warm s (by rw [hjs]; exact hroot)
  have hc0 : (baseOkPair s).1 = s := by rw [hwarm]
  have hb2 : (baseOkPair s).2 = [Effect.log usingPrevMsg] := by rw [hwarm]
  have hcz : ("commandlinetools.zip" : String).data.head? = some 'c' := by decide
  have hlicD : existsSync (cmdlineStep (s.env.platform == "darwin") ah s).1.fs
      (ah ++ "/licenses") = false := by
    refine cmdlineStep_preserves_absent _ _ _ _ hlic ?_ ?_
    · exact append_left_cancel_ne ah (by decide)
    · exact ne_of_head_ne (head?_data_append ah _ hhead) hcz (by decide)
  have hm1D : existsSync (cmdlineStep (s.env.platform == "darwin") ah s).1.fs
      (ah ++ "/licenses/android-sdk-preview-license") = false := by
    refine cmdlineStep_preserves_absent _ _ _ _ hm1 ?_ ?_
    · exact append_left_cancel_ne ah (by decide)
    · exact ne_of_head_ne (head?_data_append ah _ hhead) hcz (by decide)
  have hm2D : existsSync (cmdlineStep (s.env.platform == "darwin") ah s).1.fs
      (ah ++ "/licenses/android-sdk-arm-dbt-license") = false := by
    refine cmdlineStep_preserves_absent _ _ _ _ hm2 ?_ ?_
    · exact append_left_cancel_ne ah (by decide)
    · exact ne_of_head_ne (head?_data_append ah _ hhead) hcz (by decide)
  have hLA : (s.env.platform == "darwin") = false →
      licenseSteps (s.env.platform == "darwin") api ah
        (cmdlineStep (s.env.platform == "darwin") ah s).1 =
      ((cmdlineStep (s.env.platform == "darwin") ah s).1, [],
        some (ah ++ "/licenses/android-sdk-preview-license")) := by
    intro hb
    have hfirst := writeLicenseIfAbsent_throw (!(s.env.platform == "darwin"))
      (ah ++ "/licenses/android-sdk-preview-license") previewLicenseHash
      (cmdlineStep (s.env.platform == "darwin") ah s).1
      (by rw [hb]; rfl) hm1D (by rw [parentDir_preview]; exact hlicD)
    simp [licenseSteps, hfirst]
  have hLB : (s.env.platform == "darwin") = true → api = 30 →
      licenseSteps (s.env.platform == "darwin") api ah
        (cmdlineStep (s.env.platform == "darwin") ah s).1 =
      ((cmdlineStep (s.env.platform == "darwin") ah s).1, [],
        some (ah ++ "/licenses/android-sdk-arm-dbt-license")) := by
    intro hb hapi
    have hskip := writeLicenseIfAbsent_skip_cond (!(s.env.platform == "darwin"))
      (ah ++ "/licenses/android-sdk-preview-license") previewLicenseHash
      (cmdlineStep (s.env.platform == "darwin") ah s).1
      (by rw [hb]; rfl)
    have hsec := writeLicenseIfAbsent_throw (api == 30)
      (ah ++ "/licenses/android-sdk-arm-dbt-license") armDbtLicenseHash
      (cmdlineStep (s.env.platform == "darwin") ah s).1
      (by rw [hapi]; rfl) hm2D (by rw [parentDir_armdbt]; exact hlicD)
    simp [licenseSteps, hskip, hsec]
  refine ⟨?_, ?_, ?_⟩
  · intro hb
    rw [installAndroidSdk_eq api t a eb ndk cmk s hT, afterBase_outcome, hjs, hc0,
      chownStep_fst, hLA hb]
  · intro hb hapi
    rw [installAndroidSdk_eq api t a eb ndk cmk s hT, afterBase_outcome, hjs, hc0,
      chownStep_fst, hLB hb hapi]
  · intro hor n t2 a2 v
    have hL : ∃ q, licenseSteps (s.env.platform == "darwin") api ah
        (cmdlineStep (s.env.platform == "darwin") ah s).1 =
        ((cmdlineStep (s.env.platform == "darwin") ah s).1, [], some q) := by
      by_cases hpl : (s.env.platform == "darwin") = false
      · exact ⟨_, hLA hpl⟩
      · have hpl2 : (s.env.platform == "darwin") = true := by
          revert hpl
          cases (s.env.platform == "darwin") <;> simp
        rcases hor with hb | hapi
        · exact absurd hb hpl
        · exact ⟨_, hLB hpl2 hapi⟩
    obtain ⟨q, hLq⟩ := hL
    have hE : (installAndroidSdk api t a eb ndk cmk s).effects =
        [Effect.log usingPrevMsg] ++ (chownStep (s.env.platform == "darwin") ah s).2 ++
        (cmdlineStep (s.env.platform == "darwin") ah s).2 := by
      rw [installAndroidSdk_eq api t a eb ndk cmk s hT, afterBase_effects, hjs, hc0, hb2,
        chownStep_fst, hLq]
      simp
    refine ⟨?_, ?_, ?_, ?_, ?_, ?_⟩
    · rw [hE]
      intro hmem
      rcases List.mem_append.mp hmem with h2 | hcm
      · rcases List.mem_append.mp h2 with hlg | hch
        · simp at hlg
        · have h4 := chownStep_effects_mem _ _ _ _ hch
          simp only [Effect.execCmd.injEq] at h4
          exact ne_chown_sdkB _ _ h4.symm
      · have h6 := cmdlineStep_effects_mem _ _ _ _ hcm
        simp only [List.mem_cons, List.not_mem_nil, or_false, Effect.execCmd.injEq,
          reduceCtorEq, false_or, or_false] at h6
        rcases h6 with h6 | h6
        · exact ne_curlC_sdkB _ _ h6.symm
        · exact ne_unzipC_sdkB _ _ h6.symm
    · rw [hE]
      intro hmem
      rcases List.mem_append.mp hmem with h2 | hcm
      · rcases List.mem_append.mp h2 with hlg | hch
        · simp at hlg
        · have h4 := chownStep_effects_mem _ _ _ _ hch
          simp only [Effect.execCmd.injEq] at h4
          exact ne_chown_sdkE _ h4.symm
      · have h6 := cmdlineStep_effects_mem _ _ _ _ hcm
        simp only [List.mem_cons, List.not_mem_nil, or_false, Effect.execCmd.injEq,
          reduceCtorEq, false_or, or_false] at h6
        rcases h6 with h6 | h6
        · exact ne_curlC_sdkE _ h6.symm
        · exact ne_unzipC_sdkE _ h6.symm
    · rw [hE]
      intro hmem
      rcases List.mem_append.mp hmem with h2 | hcm
      · rcases List.mem_append.mp h2 with hlg | hch
        · simp at hlg
        · have h4 := chownStep_effects_mem _ _ _ _ hch
          simp only [Effect.execCmd.injEq] at h4
          exact ne_chown_sys _ _ _ _ h4.symm
      · have h6 := cmdlineStep_effects_mem _ _ _ _ hcm
        simp only [List.mem_cons, List.not_mem_nil, or_false, Effect.execCmd.injEq,
          reduceCtorEq, false_or, or_false] at h6
        rcases h6 with h6 | h6
        · exact ne_curlC_sys _ _ _ _ h6.symm
        · exact ne_unzipC_sys _ _ _ _ h6.symm
    · rw [hE]
      intro hmem
      rcases List.mem_append.mp hmem with h2 | hcm
      · rcases List.mem_append.mp h2 with hlg | hch
        · simp at hlg
        · have h4 := chownStep_effects_mem _ _ _ _ hch
          simp only [Effect.execCmd.injEq] at h4
          exact ne_chown_ndk _ _ h4.symm
      · have h6 := cmdlineStep_effects_mem _ _ _ _ hcm
        simp only [List.mem_cons, List.not_mem_nil, or_false, Effect.execCmd.injEq,
          reduceCtorEq, false_or, or_false] at h6
        rcases h6 with h6 | h6
        · exact ne_curlC_ndk _ _ h6.symm
        · exact ne_unzipC_ndk _ _ h6.symm
    · rw [hE]
      intro hmem
      rcases List.mem_append.mp hmem with h2 | hcm
      · rcases List.mem_append.mp h2 with hlg | hch
        · simp at hlg
        · have h4 := chownStep_effects_mem _ _ _ _ hch
          simp only [Effect.execCmd.injEq] at h4
          exact ne_chown_cmake _ _ h4.symm
      · have h6 := cmdlineStep_effects_mem _ _ _ _ hcm
        simp only [List.mem_cons, List.not_mem_nil, or_false, Effect.execCmd.injEq,
          reduceCtorEq, false_or, or_false] at h6
        rcases h6 with h6 | h6
        · exact ne_curlC_cmake _ _ h6.symm
        · exact ne_unzipC_cmake _ _ h6.symm
    · rw [hE]
      intro hmem
      rcases List.mem_append.mp hmem with h2 | hcm
      · rcases List.mem_append.mp h2 with hlg | hch
        · simp at hlg
        · have h4 := chownStep_effects_mem _ _ _ _ hch
          simp only [Effect.execCmd.injEq] at h4
          exact ne_mkdir_chown _ _ h4
      · have h6 := cmdlineStep_effects_mem _ _ _ _ hcm
        simp only [List.mem_cons, List.not_mem_nil, or_false, Effect.execCmd.injEq,
          reduceCtorEq, false_or, or_false] at h6
        rcases h6 with h6 | h6
        · exact ne_mkdir_curlC _ _ h6
        · exact ne_mkdir_unzipC _ _ h6

/-- Witness for C10 on a warm Linux runner whose licenses directory is
missing. -/
theorem claim_C10_license_write_throws_without_licenses_dir_witness :
    (((noLicensesDirState.env.platform == "darwin") = false →
      (installAndroidSdk 30 "google_apis" "x86_64" none none none noLicensesDirState).outcome =
        Outcome.exn ("/sdk" ++ "/licenses/android-sdk-preview-license")) ∧
    ((noLicensesDirState.env.platform == "darwin") = true → 30 = 30 →
      (installAndroidSdk 30 "google_apis" "x86_64" none none none noLicensesDirState).outcome =
        Outcome.exn ("/sdk" ++ "/licenses/android-sdk-arm-dbt-license")) ∧
    (((noLicensesDirState.env.platform == "darwin") = false ∨ 30 = 30) →
      ∀ (n : Nat) (t2 a2 v : String),
        Effect.execCmd (sdkmanagerBaseCmd n) ∉
          (installAndroidSdk 30 "google_apis" "x86_64" none none none noLicensesDirState).effects ∧
        Effect.execCmd sdkmanagerEmulatorCmd ∉
          (installAndroidSdk 30 "google_apis" "x86_64" none none none noLicensesDirState).effects ∧
        Effect.execCmd (sdkmanagerSysImgCmd n t2 a2) ∉
          (installAndroidSdk 30 "google_apis" "x86_64" none none none noLicensesDirState).effects ∧
        Effect.execCmd (sdkmanagerNdkCmd v) ∉
          (installAndroidSdk 30 "google_apis" "x86_64" none none none noLicensesDirState).effects ∧
        Effect.execCmd (sdkmanagerCmakeCmd v) ∉
          (installAndroidSdk 30 "google_apis" "x86_64" none none none noLicensesDirState).effects ∧
        Effect.execCmd (mkdirCmd ("/sdk" ++ "/licenses")) ∉
          (installAndroidSdk 30 "google_apis" "x86_64" none none none
            noLicensesDirState).effects)) :=
  claim_C10_license_write_throws_without_licenses_dir 30 "google_apis" "x86_64" none none none
    noLicensesDirState "/sdk" (by decide) (by decide) (by decide) (by decide) (by decide)
    (by decide) (by decide)

theorem licenseSteps_warm (b : Bool) (api : Nat) (ah : String) (s : St)
    (hdir : existsSync s.fs (ah ++ "/licenses") = true)
    (h1 : existsSync s.fs (ah ++ "/licenses/android-sdk-preview-license") = false)
    (h2 : existsSync s.fs (ah ++ "/licenses/android-sdk-arm-dbt-license") = false) :
    (licenseSteps b api ah s).2.1 =
      (if b then [] else [Effect.writeFileSync (ah ++ "/licenses/android-sdk-preview-license")
        previewLicenseHash]) ++
      (if api == 30 then [Effect.writeFileSync (ah ++ "/licenses/android-sdk-arm-dbt-license")
        armDbtLicenseHash] else []) ∧
    (licenseSteps b api ah s).2.2 = none := by
  by_cases hB : b = true
  · have hfirst := writeLicenseIfAbsent_skip_cond (!b)
      (ah ++ "/licenses/android-sdk-preview-license") previewLicenseHash s (by rw [hB]; rfl)
    simp only [hB, Bool.not_true] at hfirst
    by_cases hA : (api == 30) = true
    · have hsec := writeLicenseIfAbsent_write (api == 30)
        (ah ++ "/licenses/android-sdk-arm-dbt-license") armDbtLicenseHash s hA h2
        (by rw [parentDir_armdbt]; exact hdir)
      simp only [hA] at hsec
      simp [licenseSteps, hfirst, hsec, hB, hA]
    · have hA2 : (api == 30) = false := by
        revert hA
        cases (api == 30) <;> simp
      have hsec := writeLicenseIfAbsent_skip_cond (api == 30)
        (ah ++ "/licenses/android-sdk-arm-dbt-license") armDbtLicenseHash s hA2
      simp only [hA2] at hsec
      simp [licenseSteps, hfirst, hsec, hB, hA2]
  · have hB2 : b = false := by
      revert hB
      cases b <;> simp
    have hfirst := writeLicenseIfAbsent_write (!b)
      (ah ++ "/licenses/android-sdk-preview-license") previewLicenseHash s
      (by rw [hB2]; rfl) h1 (by rw [parentDir_preview]; exact hdir)
    simp only [hB2, Bool.not_false] at hfirst
    have hne21 : (ah ++ "/licenses/android-sdk-arm-dbt-license") ≠
        (ah ++ "/licenses/android-sdk-preview-license") :=
      append_left_cancel_ne ah (by decide)
    have h2b : existsSync (addFsPath s.fs (ah ++ "/licenses/android-sdk-preview-license"))
        (ah ++ "/licenses/android-sdk-arm-dbt-license") = false := by
      rw [Bool.eq_false_iff]
      simp [existsSync_addFsPath_iff, h2, hne21]
    have hdirb : existsSync (addFsPath s.fs (ah ++ "/licenses/android-sdk-preview-license"))
        (ah ++ "/licenses") = true := by
      simp [existsSync_addFsPath_iff, hdir]
    by_cases hA : (api == 30) = true
    · have hsec := writeLicenseIfAbsent_write (api == 30)
        (ah ++ "/licenses/android-sdk-arm-dbt-license") armDbtLicenseHash
        ({ s with fs := addFsPath s.fs (ah ++ "/licenses/android-sdk-preview-license") })
        hA h2b (by rw [parentDir_armdbt]; exact hdirb)
      simp only [hA] at hsec
      simp [licenseSteps, hfirst, hsec, hB2, hA]
    · have hA2 : (api == 30) = false := by
        revert hA
        cases (api == 30) <;> simp
      have hsec := writeLicenseIfAbsent_skip_cond (api == 30)
        (ah ++ "/licenses/android-sdk-arm-dbt-license") armDbtLicenseHash
        ({ s with fs := addFsPath s.fs (ah ++ "/licenses/android-sdk-preview-license") }) hA2
      simp only [hA2] at hsec
      simp [licenseSteps, hfirst, hsec, hB2, hA2]

set_option maxRecDepth 8000 in
/-- C1 counterexample: on macOS (platform darwin) with API level 30 the
arm-dbt license marker IS written — line 69 guards the second write only by
the API level, with no platform check — contradicting the claim that on
macOS neither marker is written. -/
theorem claim_C1_counterexample :
    (macApi30State.env.platform == "darwin") = true ∧
    Effect.writeFileSync ("/sdk" ++ "/licenses/android-sdk-arm-dbt-license") armDbtLicenseHash ∈
      (installAndroidSdk 30 "google_apis" "x86_64" none none none macApi30State).effects := by
  constructor
  · decide
  · decide

set_option maxHeartbeats 1600000 in
/-- C1 (amended): in a warm run with the licenses directory present and
neither marker present, the preview-license marker is written exactly on
non-macOS platforms, and the arm-dbt-license marker is written exactly when
the API level is 30 — on every platform, macOS included; with API level 29
the arm-dbt marker is not written. -/
theorem claim_C1_amended_license_markers (api : Nat) (t a : String)
    (eb ndk cmk : Option String) (s : St) (ah : String)
    (hAH : s.env.androidHome = some ah) (hne : ah ≠ "")
    (hhead : ah.data.head? = some '/')
    (hroot : existsSync s.fs ah = true)
    (hlic : existsSync s.fs (ah ++ "/licenses") = true)
    (hm1 : existsSync s.fs (ah ++ "/licenses/android-sdk-preview-license") = false)
    (hm2 : existsSync s.fs (ah ++ "/licenses/android-sdk-arm-dbt-license") = false) :
    ((s.env.platform == "darwin") = false →
      Effect.writeFileSync (ah ++ "/licenses/android-sdk-preview-license") previewLicenseHash ∈
        (installAndroidSdk api t a eb ndk cmk s).effects) ∧
    ((s.env.platform == "darwin") = true →
      Effect.writeFileSync (ah ++ "/licenses/android-sdk-preview-license") previewLicenseHash ∉
        (installAndroidSdk api t a eb ndk cmk s).effects) ∧
    (api = 30 →
      Effect.writeFileSync (ah ++ "/licenses/android-sdk-arm-dbt-license") armDbtLicenseHash ∈
        (installAndroidSdk api t a eb ndk cmk s).effects) ∧
    (api = 29 →
      Effect.writeFileSync (ah ++ "/licenses/android-sdk-arm-dbt-license") armDbtLicenseHash ∉
        (installAndroidSdk api t a eb ndk cmk s).effects) := by
  have hT : truthy s.env.androidHome = true := by simp [truthy, hAH, hne]
  have hjs : jsStr s.env.androidHome = ah := by simp [jsStr, hAH]
  have hwarm : baseOkPair s = (s, [Effect.log usingPrevMsg]) :=
    baseOkPair_warm s (by rw [hjs]; exact hroot)
  have hc0 : (baseOkPair s).1 = s := by rw [hwarm]
  have hb2 : (baseOkPair s).2 = [Effect.log usingPrevMsg] := by rw [hwarm]
  have hcz : ("commandlinetools.zip" : String).data.head? = some 'c' := by decide
  have hlicD : existsSync (cmdlineStep (s.env.platform == "darwin") ah s).1.fs
      (ah ++ "/licenses") = true := by
    refine cmdlineStep_preserves_present _ _ _ _ hlic ?_
    exact isPathOrUnder_head_ne _ _ (head?_data_append ah _ hhead) hcz (by decide)
  have hm1D : existsSync (cmdlineStep (s.env.platform == "darwin") ah s).1.fs
      (ah ++ "/licenses/android-sdk-preview-license") = false := by
    refine cmdlineStep_preserves_absent _ _ _ _ hm1 ?_ ?_
    · exact append_left_cancel_ne ah (by decide)
    · exact ne_of_head_ne (head?_data_append ah _ hhead) hcz (by decide)
  have hm2D : existsSync (cmdlineStep (s.env.platform == "darwin") ah s).1.fs
      (ah ++ "/licenses/android-sdk-arm-dbt-license") = false := by
    refine cmdlineStep_preserves_absent _ _ _ _ hm2 ?_ ?_
    · exact append_left_cancel_ne ah (by decide)
    · exact ne_of_head_ne (head?_data_append ah _ hhead) hcz (by decide)
  have hLW := licenseSteps_warm (s.env.platform == "darwin") api ah
    (cmdlineStep (s.env.platform == "darwin") ah s).1 hlicD hm1D hm2D
  have hE : (installAndroidSdk api t a eb ndk cmk s).effects =
      [Effect.log usingPrevMsg] ++ (chownStep (s.env.platform == "darwin") ah s).2 ++
      (cmdlineStep (s.env.platform == "darwin") ah s).2 ++
      ((if (s.env.platform == "darwin") then [] else
        [Effect.writeFileSync (ah ++ "/licenses/android-sdk-preview-license")
          previewLicenseHash]) ++
       (if api == 30 then
        [Effect.writeFileSync (ah ++ "/licenses/android-sdk-arm-dbt-license")
          armDbtLicenseHash] else [])) ++
      (packagesTail (s.env.platform == "darwin") api t a eb ndk cmk ah
        (licenseSteps (s.env.platform == "darwin") api ah
          (cmdlineStep (s.env.platform == "darwin") ah s).1).1).2 := by
    rw [installAndroidSdk_eq api t a eb ndk cmk s hT, afterBase_effects, hjs, hc0, hb2,
      chownStep_fst, hLW.1, hLW.2]
  have hW12 : previewLicenseHash ≠ armDbtLicenseHash := by decide
  refine ⟨?_, ?_, ?_, ?_⟩
  · intro hb
    rw [hE]
    simp [hb]
  · intro hb
    rw [hE]
    intro hmem
    rcases List.mem_append.mp hmem with h | h5
    · rcases List.mem_append.mp h with h | h4
      · rcases List.mem_append.mp h with h | h3
        · rcases List.mem_append.mp h with h1a | h2a
          · simp at h1a
          · have h := chownStep_effects_mem _ _ _ _ h2a
            simp at h
        · have h := cmdlineStep_effects_mem _ _ _ _ h3
          simp at h
      · rcases List.mem_append.mp h4 with hb1 | ha1
        · rw [hb] at hb1
          simp at hb1
        · by_cases hA : (api == 30) = true
          · simp only [hA, if_true, List.mem_singleton, Effect.writeFileSync.injEq] at ha1
            exact hW12 ha1.2
          · have hA2 : (api == 30) = false := by
              revert hA
              cases (api == 30) <;> simp
            simp [hA2] at ha1
    · have h := packagesTail_effects_mem _ _ _ _ _ _ _ _ _ _ h5
      simp at h
  · intro hapi
    subst hapi
    rw [hE]
    simp
  · intro hapi
    subst hapi
    rw [hE]
    intro hmem
    rcases List.mem_append.mp hmem with h | h5
    · rcases List.mem_append.mp h with h | h4
      · rcases List.mem_append.mp h with h | h3
        · rcases List.mem_append.mp h with h1a | h2a
          · simp at h1a
          · have h := chownStep_effects_mem _ _ _ _ h2a
            simp at h
        · have h := cmdlineStep_effects_mem _ _ _ _ h3
          simp at h
      · rcases List.mem_append.mp h4 with hb1 | ha1
        · by_cases hB : (s.env.platform == "darwin") = true
          · simp [hB] at hb1
          · have hB2 : (s.env.platform == "darwin") = false := by
              revert hB
              cases (s.env.platform == "darwin") <;> simp
            simp only [hB2, Bool.false_eq_true, List.mem_singleton,
              Effect.writeFileSync.injEq, if_neg not_false] at hb1
            exact hW12 hb1.2.symm
        · simp at ha1
    · have h := packagesTail_effects_mem _ _ _ _ _ _ _ _ _ _ h5
      simp at h

/-- Witness for the amended C1 on a warm Linux runner at API level 30. -/
theorem claim_C1_amended_license_markers_witness :
    (((warmLinuxState.env.platform == "darwin") = false →
      Effect.writeFileSync ("/sdk" ++ "/licenses/android-sdk-preview-license")
        previewLicenseHash ∈
        (installAndroidSdk 30 "google_apis" "x86_64" none none none warmLinuxState).effects) ∧
    ((warmLinuxState.env.platform == "darwin") = true →
      Effect.writeFileSync ("/sdk" ++ "/licenses/android-sdk-preview-license")
        previewLicenseHash ∉
        (installAndroidSdk 30 "google_apis" "x86_64" none none none warmLinuxState).effects) ∧
    (30 = 30 →
      Effect.writeFileSync ("/sdk" ++ "/licenses/android-sdk-arm-dbt-license")
        armDbtLicenseHash ∈
        (installAndroidSdk 30 "google_apis" "x86_64" none none none warmLinuxState).effects) ∧
    (30 = 29 →
      Effect.writeFileSync ("/sdk" ++ "/licenses/android-sdk-arm-dbt-license")
        armDbtLicenseHash ∉
        (installAndroidSdk 30 "google_apis" "x86_64" none none none warmLinuxState).effects)) :=
  claim_C1_amended_license_markers 30 "google_apis" "x86_64" none none none
    warmLinuxState "/sdk" (by decide) (by decide) (by decide) (by decide) (by decide)
    (by decide) (by decide)

end SdkInstaller
